import Mathlib

/-!
Verification of the MCP (Model Context Protocol) core of the repository
`ivanuser/open-webui` against its natural-language specification.

The development shallowly embeds the Python modules

  * `src/mcp/client/formatter.py`        (tool-call extraction from model text)
  * `src/mcp/client/bridge.py`           (Ollama-MCP bridge)
  * `src/mcp/transport/stdio.py`         (stdio transport)
  * `src/mcp/transport/sse.py`           (SSE transport)
  * `src/mcp/transport/utils.py`         (port extraction helper)
  * `src/mcp/server_manager/controller.py`        (standalone controller)
  * `src/backend/open_webui/mcp/server_manager.py` (backend controller)

Pure functions become Lean functions.  Stateful methods become functions from
an explicit state (plus an oracle describing the behaviour of the outside
world: processes, HTTP, timers) to a result and a new state.  Fallible Python
code is modelled in `Except`; machine integers are `Nat`/`Int` (Python ints
are unbounded).  Python dicts are association lists with unique keys,
maintained structurally by the operations below.
-/

set_option maxRecDepth 10000

/-- Lookup in a Python-dict model: first (and, by construction, only)
binding of the key. -/
def dictGet {κ α : Type} [DecidableEq κ] (d : List (κ × α)) (k : κ) : Option α :=
  match d.find? (fun p => decide (p.1 = k)) with
  | some p => some p.2
  | none => none

/-- Assignment `d[k] = v` in a Python dict: the key becomes bound to `v`
and every previous binding of `k` is dropped. -/
def dictInsert {κ α : Type} [DecidableEq κ] (k : κ) (v : α) (d : List (κ × α)) :
    List (κ × α) :=
  (k, v) :: d.filter (fun p => decide (p.1 ≠ k))

/-- Deletion `del d[k]` in a Python dict. -/
def dictDel {κ α : Type} [DecidableEq κ] (d : List (κ × α)) (k : κ) : List (κ × α) :=
  d.filter (fun p => decide (p.1 ≠ k))

/-! ## JSON values and a model of Python `json.loads` -/

/-- Values produced by Python's `json.loads`.  Numbers keep their parsed
components (sign, integer digits value, fractional digit characters,
exponent); no floating-point value is ever computed — the embedded code only
tests truthiness of numbers.  `nan`/`inf` model the non-standard `NaN`,
`Infinity` and `-Infinity` constants `json.loads` accepts by default.
`null` also stands for Python `None` where dict `.get` misses. -/
inductive JValue where
  | null : JValue
  | bool (b : Bool) : JValue
  | num (neg : Bool) (ip : Nat) (frac : List Char) (exp : Int) : JValue
  | nan : JValue
  | inf (neg : Bool) : JValue
  | str (s : String) : JValue
  | arr (xs : List JValue) : JValue
  | obj (fields : List (String × JValue)) : JValue

/-- Index of the first occurrence of `needle` in `hay`, scanning left to
right (the anchor search shared by the regex models and substring tests). -/
def firstOccurAux (needle : List Char) : List Char → Option Nat
  | [] => if needle.isEmpty then some 0 else none
  | c :: cs =>
    if needle.isPrefixOf (c :: cs) then some 0
    else (firstOccurAux needle cs).map (· + 1)

/-- Whitespace skipped by the JSON decoder (`json.decoder.WHITESPACE`):
space, tab, newline, carriage return. -/
def isJsonWs (c : Char) : Bool :=
  c.toNat = 32 || c.toNat = 9 || c.toNat = 10 || c.toNat = 13

def skipWs (cs : List Char) : List Char := cs.dropWhile isJsonWs

def isDigitCh (c : Char) : Bool := 48 ≤ c.toNat && c.toNat ≤ 57

/-- Value of one hex digit (upper- or lower-case), via code points. -/
def hexVal (c : Char) : Option Nat :=
  let u := c.toNat
  if 48 ≤ u ∧ u ≤ 57 then some (u - 48)
  else if 97 ≤ u ∧ u ≤ 102 then some (u - 87)
  else if 65 ≤ u ∧ u ≤ 70 then some (u - 55)
  else none

/-- Read exactly four hex digits (the `XXXX` of a `\uXXXX` escape). -/
def readHex4 (cs : List Char) : Option (Nat × List Char) :=
  match cs with
  | h1 :: h2 :: h3 :: h4 :: more =>
    match hexVal h1, hexVal h2, hexVal h3, hexVal h4 with
    | some d1, some d2, some d3, some d4 =>
      some (4096 * d1 + 256 * d2 + 16 * d3 + d4, more)
    | _, _, _, _ => none
  | _ => none

/-- The single-character escapes of `json.decoder.BACKSLASH`. -/
def simpleEsc (e : Char) : Option Char :=
  if e.toNat = 110 then some (Char.ofNat 10)
  else if e.toNat = 116 then some (Char.ofNat 9)
  else if e.toNat = 114 then some (Char.ofNat 13)
  else if e.toNat = 98 then some (Char.ofNat 8)
  else if e.toNat = 102 then some (Char.ofNat 12)
  else if e.toNat = 34 ∨ e.toNat = 92 ∨ e.toNat = 47 then some e
  else none

/-- Body of a JSON string literal (after the opening quote).  Escapes follow
`json.decoder.py_scanstring` with `strict=True` (raw control characters are
rejected).  A `\uXXXX` high surrogate followed by a low surrogate is
combined; a lone surrogate (which Python keeps as an unpaired code unit) is
approximated through `Char.ofNat`. -/
def parseStrChars : Nat → List Char → Option (List Char × List Char)
  | 0, _ => none
  | _ + 1, [] => none
  | fuel + 1, c :: cs =>
    if c = '"' then some ([], cs)
    else if c = '\\' then
      match cs with
      | [] => none
      | e :: cs' =>
        match simpleEsc e with
        | some out => (parseStrChars fuel cs').map (fun r => (out :: r.1, r.2))
        | none =>
          if e = 'u' then
          match readHex4 cs' with
          | none => none
          | some (n, cs2) =>
            if 0xD800 ≤ n ∧ n ≤ 0xDBFF then
              match cs2 with
              | '\\' :: 'u' :: cs3 =>
                match readHex4 cs3 with
                | some (m, cs4) =>
                  if 0xDC00 ≤ m ∧ m ≤ 0xDFFF then
                    (parseStrChars fuel cs4).map
                      (fun r => (Char.ofNat (0x10000 + (n - 0xD800) * 0x400 + (m - 0xDC00)) :: r.1, r.2))
                  else (parseStrChars fuel cs2).map (fun r => (Char.ofNat n :: r.1, r.2))
                | none => (parseStrChars fuel cs2).map (fun r => (Char.ofNat n :: r.1, r.2))
              | _ => (parseStrChars fuel cs2).map (fun r => (Char.ofNat n :: r.1, r.2))
            else (parseStrChars fuel cs2).map (fun r => (Char.ofNat n :: r.1, r.2))
          else none
    else if c.toNat < 0x20 then none
    else (parseStrChars fuel cs).map (fun r => (c :: r.1, r.2))

/-- Integer digits of a JSON number: `0` alone, or a nonzero digit followed
by any digits (regex `(?:0|[1-9]\d*)` of `json.decoder.NUMBER_RE`). -/
def parseIntPart (cs : List Char) : Option (Nat × List Char) :=
  match cs with
  | c :: rest =>
    if c = '0' then some (0, rest)
    else if isDigitCh c then
      let digs := rest.takeWhile isDigitCh
      let v := digs.foldl (fun a d => 10 * a + (d.toNat - 48)) (c.toNat - 48)
      some (v, rest.dropWhile isDigitCh)
    else none
  | [] => none

/-- Optional fraction `(\.\d+)?`: only consumed when a digit follows the dot. -/
def parseFrac (cs : List Char) : List Char × List Char :=
  match cs with
  | '.' :: rest =>
    match rest with
    | d :: _ =>
      if isDigitCh d then (rest.takeWhile isDigitCh, rest.dropWhile isDigitCh)
      else ([], cs)
    | [] => ([], cs)
  | _ => ([], cs)

/-- Optional exponent `([eE][-+]?\d+)?`: only consumed when digits follow. -/
def parseExp (cs : List Char) : Int × List Char :=
  match cs with
  | e :: rest =>
    if e = 'e' || e = 'E' then
      let (sgn, rest') : Bool × List Char :=
        match rest with
        | '-' :: r => (true, r)
        | '+' :: r => (false, r)
        | _ => (false, rest)
      match rest' with
      | d :: _ =>
        if isDigitCh d then
          let digs := rest'.takeWhile isDigitCh
          let v : Nat := digs.foldl (fun a c => 10 * a + (c.toNat - 48)) 0
          (if sgn then -(v : Int) else (v : Int), rest'.dropWhile isDigitCh)
        else (0, cs)
      | [] => (0, cs)
    else (0, cs)
  | [] => (0, cs)

def parseNumber (neg : Bool) (cs : List Char) : Option (JValue × List Char) :=
  match parseIntPart cs with
  | none => none
  | some (ip, rest) =>
    let (fr, rest') := parseFrac rest
    let (ex, rest'') := parseExp rest'
    some (.num neg ip fr ex, rest'')

/-- Insert a key into an object, the way building a Python dict does:
a repeated key overwrites the earlier value. -/
def objUpsert (fs : List (String × JValue)) (k : String) (v : JValue) :
    List (String × JValue) :=
  if fs.any (fun p => decide (p.1 = k)) then
    fs.map (fun p => if p.1 = k then (k, v) else p)
  else fs ++ [(k, v)]

mutual

/-- One JSON value, starting at the given characters (no leading
whitespace), following `json.decoder`'s scanner: strings, objects, arrays,
the literals `null`/`true`/`false`, numbers, and the default-enabled
constants `NaN`, `Infinity`, `-Infinity`. -/
def parseVal : Nat → List Char → Option (JValue × List Char)
  | 0, _ => none
  | _ + 1, [] => none
  | fuel + 1, c :: cs =>
    if c = '"' then
      (parseStrChars (fuel + 1) cs).map (fun r => (.str ⟨r.1⟩, r.2))
    else if c = '\x7b' then
      let body := skipWs cs
      match body with
      | '\x7d' :: rest => some (.obj [], rest)
      | _ => parseObjRest fuel [] body
    else if c = '[' then
      let body := skipWs cs
      match body with
      | ']' :: rest => some (.arr [], rest)
      | _ => parseArrRest fuel [] body
    else if c = 't' then
      if ['r', 'u', 'e'].isPrefixOf cs then some (.bool true, cs.drop 3) else none
    else if c = 'f' then
      if ['a', 'l', 's', 'e'].isPrefixOf cs then some (.bool false, cs.drop 4) else none
    else if c = 'n' then
      if ['u', 'l', 'l'].isPrefixOf cs then some (.null, cs.drop 3) else none
    else if c = 'N' then
      if ['a', 'N'].isPrefixOf cs then some (.nan, cs.drop 2) else none
    else if c = 'I' then
      if ['n', 'f', 'i', 'n', 'i', 't', 'y'].isPrefixOf cs then some (.inf false, cs.drop 7)
      else none
    else if c = '-' then
      if ['I', 'n', 'f', 'i', 'n', 'i', 't', 'y'].isPrefixOf cs then some (.inf true, cs.drop 8)
      else parseNumber true cs
    else if isDigitCh c then parseNumber false (c :: cs)
    else none

/-- Members of an object after `{` (or a comma), expecting a string key. -/
def parseObjRest : Nat → List (String × JValue) → List Char → Option (JValue × List Char)
  | 0, _, _ => none
  | fuel + 1, acc, cs =>
    match cs with
    | '"' :: cs' =>
      match parseStrChars (fuel + 1) cs' with
      | none => none
      | some (kcs, rest) =>
        match skipWs rest with
        | ':' :: rest' =>
          match parseVal fuel (skipWs rest') with
          | none => none
          | some (v, rest'') =>
            let acc' := objUpsert acc ⟨kcs⟩ v
            match skipWs rest'' with
            | ',' :: rest3 => parseObjRest fuel acc' (skipWs rest3)
            | '\x7d' :: rest3 => some (.obj acc', rest3)
            | _ => none
        | _ => none
    | _ => none

/-- Elements of an array after `[` (or a comma). -/
def parseArrRest : Nat → List JValue → List Char → Option (JValue × List Char)
  | 0, _, _ => none
  | fuel + 1, acc, cs =>
    match parseVal fuel cs with
    | none => none
    | some (v, rest) =>
      match skipWs rest with
      | ',' :: rest' => parseArrRest fuel (acc ++ [v]) (skipWs rest')
      | ']' :: rest' => some (.arr (acc ++ [v]), rest')
      | _ => none

end

/-- Model of `json.loads`: one document, with surrounding whitespace; any
trailing non-whitespace is an "Extra data" error (`none`). -/
def jsonLoads (s : String) : Option JValue :=
  let cs := skipWs s.data
  match parseVal (2 * s.data.length + 8) cs with
  | some (v, rest) => if skipWs rest = [] then some v else none
  | none => none

/-! ## Python operational semantics used by the embedded code -/

/-- Exceptions the embedded Python code can raise (beyond JSONDecodeError,
which each call site handles explicitly). -/
inductive PyErr where
  | typeError : PyErr
  | attrError : PyErr
  | keyError : PyErr
  | requestError : PyErr
  | otherError : PyErr
deriving DecidableEq

/-- Python `key in data` for a string key: dict → key test, list → element
equality, str → substring test; any other type raises `TypeError`. -/
def pyContains (key : String) : JValue → Except PyErr Bool
  | .obj fs => .ok (fs.any (fun p => decide (p.1 = key)))
  | .arr xs => .ok (xs.any (fun x => match x with | .str s => decide (s = key) | _ => false))
  | .str s => .ok ((firstOccurAux key.data s.data).isSome)
  | _ => .error .typeError

/-- Python `data.get(key)`: `None` (modelled `.null`) when missing; only
dicts have `.get`, anything else raises `AttributeError`. -/
def pyGet (v : JValue) (key : String) : Except PyErr JValue :=
  match v with
  | .obj fs =>
    match fs.find? (fun p => decide (p.1 = key)) with
    | some p => .ok p.2
    | none => .ok .null
  | _ => .error .attrError

/-- Python `data.get(key, dflt)`. -/
def pyGetD (v : JValue) (key : String) (dflt : JValue) : Except PyErr JValue :=
  match v with
  | .obj fs =>
    match fs.find? (fun p => decide (p.1 = key)) with
    | some p => .ok p.2
    | none => .ok dflt
  | _ => .error .attrError

/-- Python `data[key]` for a string key: `KeyError` on a dict miss;
`TypeError` on lists, strings and scalars. -/
def pyIndex (v : JValue) (key : String) : Except PyErr JValue :=
  match v with
  | .obj fs =>
    match fs.find? (fun p => decide (p.1 = key)) with
    | some p => .ok p.2
    | none => .error .keyError
  | _ => .error .typeError

/-- Python truthiness of a `json.loads` value. -/
def pyTruthy : JValue → Bool
  | .null => false
  | .bool b => b
  | .num _ ip fr _ => decide (ip ≠ 0) || fr.any (fun c => decide (c ≠ '0'))
  | .nan => true
  | .inf _ => true
  | .str s => decide (s ≠ "")
  | .arr xs => !xs.isEmpty
  | .obj fs => !fs.isEmpty

/-- Python `for x in data`: lists iterate elements, dicts iterate keys,
strings iterate one-character strings; scalars raise `TypeError`. -/
def pyIter : JValue → Except PyErr (List JValue)
  | .arr xs => .ok xs
  | .obj fs => .ok (fs.map (fun p => .str p.1))
  | .str s => .ok (s.data.map (fun c => .str ⟨[c]⟩))
  | _ => .error .typeError

/-! ## `src/mcp/client/formatter.py` — `MCPFormatter.extract_tool_call_from_content` -/

namespace MCPFormatter

/-- Characters matched by Python's regex class `\s` (unicode mode). -/
def isPyWs (c : Char) : Bool :=
  c = ' ' || c = '\t' || c = '\n' || c = '\r' || c = '\x0b' || c = '\x0c' ||
  c = '\x1c' || c = '\x1d' || c = '\x1e' || c = '\x1f' || c = '\x85' || c = '\xa0' ||
  c = ' ' || (' ' ≤ c && c ≤ ' ') || c = ' ' || c = ' ' ||
  c = ' ' || c = ' ' || c = '　'

/-- Strip `\s*` from both ends (what the greedy `\s*` groups around the lazy
capture of the fenced-block pattern remove). -/
def pyStrip (cs : List Char) : List Char :=
  ((cs.dropWhile isPyWs).reverse.dropWhile isPyWs).reverse

def fencedOpen : List Char := "```json".data

def fencedClose : List Char := "```".data

/-- Model of `re.findall(r"```json\s*([\s\S]*?)\s*```", content)`.

For each leftmost occurrence of the literal ` ```json `, the lazy group ends
at the first following ` ``` `; the two greedy `\s*` strip whitespace from
both ends of the captured text.  Scanning resumes after the closing fence.
An opening fence with no closing fence matches nothing (and then no later
occurrence can match either, since every later opener starts with the
closing literal). -/
def fencedAux : Nat → List Char → List String
  | 0, _ => []
  | fuel + 1, s =>
    match firstOccurAux fencedOpen s with
    | none => []
    | some i =>
      let rest := s.drop (i + 7)
      match firstOccurAux fencedClose rest with
      | none => []
      | some j => (⟨pyStrip (rest.take j)⟩ : String) :: fencedAux fuel (rest.drop (j + 3))

def fencedBlocks (content : String) : List String :=
  fencedAux (content.data.length + 1) content.data

/-- Model of `re.findall(r"\{[\s\S]*?\}", content)`: from each leftmost
unconsumed `{`, a lazy match up to the first following `}`; scanning resumes
after that `}`. -/
def braceAux : Nat → List Char → List String
  | 0, _ => []
  | fuel + 1, s =>
    match firstOccurAux ['\x7b'] s with
    | none => []
    | some i =>
      let rest := s.drop (i + 1)
      match firstOccurAux ['\x7d'] rest with
      | none => []
      | some j =>
        (⟨'\x7b' :: (rest.take j ++ ['\x7d'])⟩ : String) :: braceAux fuel (rest.drop (j + 1))

def braceMatches (content : String) : List String :=
  braceAux (content.data.length + 1) content.data

/-- Normalized tool call `{name, arguments}` returned by the formatter. -/
structure ToolCall where
  name : JValue
  arguments : JValue

/-- Shape check and normalization applied to one parsed candidate
(source lines 146-168).  Mirrors the Python evaluation order, including the
short-circuiting `and`/`or` on the membership tests, the truthiness
fall-through of `data.get("params") or data.get("parameters") or {}`, and
the type errors non-dict values raise on `.get`/indexing. -/
def tryToolCall (data : JValue) : Except PyErr (Option ToolCall) := do
  let hasAction ← pyContains "action" data
  let cond1 ←
    if hasAction then do
      let hp ← pyContains "params" data
      if hp then pure true else pyContains "parameters" data
    else pure false
  if cond1 then do
    let p1 ← pyGet data "params"
    let params ←
      if pyTruthy p1 then pure p1
      else do
        let p2 ← pyGet data "parameters"
        pure (if pyTruthy p2 then p2 else JValue.obj [])
    let nm ← pyIndex data "action"
    pure (some (ToolCall.mk nm params))
  else do
    let hasTool ← pyContains "tool" data
    let cond2 ← if hasTool then pyContains "tool_input" data else pure false
    if cond2 then do
      let nm ← pyIndex data "tool"
      let ti ← pyIndex data "tool_input"
      pure (some (ToolCall.mk nm ti))
    else do
      let hasName ← pyContains "name" data
      let cond3 ← if hasName then pyContains "arguments" data else pure false
      if cond3 then do
        let nm ← pyIndex data "name"
        let ar ← pyIndex data "arguments"
        pure (some (ToolCall.mk nm ar))
      else
        pure none

/-- One iteration of the candidate loop: `json.loads` failure is caught
(`except json.JSONDecodeError: continue`), any other exception propagates. -/
def candStep (m : String) : Except PyErr (Option ToolCall) :=
  match jsonLoads m with
  | none => .ok none
  | some data => tryToolCall data

/-- The `for match in matches` loop: first candidate that normalizes wins. -/
def scanCandidates : List String → Except PyErr (Option ToolCall)
  | [] => .ok none
  | m :: rest =>
    match candStep m with
    | .error e => .error e
    | .ok (some c) => .ok (some c)
    | .ok none => scanCandidates rest

/-- Candidate selection (source lines 128-139): all fenced ```json blocks;
only when the fenced pattern produced no match at all, all brace-delimited
snippets of the raw text. -/
def candidates (content : String) : List String :=
  let ms := fencedBlocks content
  if ms.isEmpty then braceMatches content else ms

/-- Model of `MCPFormatter.extract_tool_call_from_content` (lines 117-173). -/
def extract_tool_call_from_content (content : String) : Except PyErr (Option ToolCall) :=
  scanCandidates ( candidates content)

end MCPFormatter

/-! ## Shared world/event vocabulary for the stateful components -/

/-- Observable side effect of spawning an OS process. -/
inductive Event where
  | spawned (command : String) (args : List String) (pid : Nat)

/-- Observable network side effect (an HTTP POST to a provider). -/
inductive NetEvent where
  | posted (url : String)

/-- Outcome of one HTTP POST, as seen by the caller: the request raised
(connection error etc.), or a response with a status code and — when the
body parsed as JSON — its parsed body (`none` models a `.json()` failure). -/
inductive HttpPost where
  | raised
  | resp (status : Nat) (body : Option JValue)

/-- Outcome of blocking on a pending-request future: the listener resolved
it with a response before the deadline, or the deadline elapsed. -/
inductive WaitOutcome where
  | resolved (resp : JValue)
  | timedOut

/-- Errors a transport `send_request` can raise to its caller. -/
inductive TransportErr where
  | notRunning
  | sendFailed
  | timeout (id : Nat)

/-! ## `src/mcp/transport/stdio.py` — `StdioTransport` -/

namespace Stdio

/-- Transport state: liveness of the child process (with an open stdin),
the handshake flag, the id counter and the pending-request correlator
(request id ↦ caller slot token). -/
structure State where
  processAlive : Bool
  initialized : Bool
  request_id : Nat
  pending_requests : List (Nat × Nat)

/-- Model of `_get_next_id` (lines 382-390): `self.request_id += 1` then
return it; acts on the counter field. -/
def _get_next_id (request_id : Nat) : Nat × Nat :=
  (request_id + 1, request_id + 1)

/-- Identifiers produced by `n` consecutive `_get_next_id` calls starting
from counter value `s`. -/
def allocIds : Nat → Nat → List Nat
  | _, 0 => []
  | s, n + 1 =>
    let p := _get_next_id s
    p.1 :: allocIds p.2 n

/-- One parsed line of protocol traffic, as dispatched by `_read_stdout`:
an optional response identifier (this client only ever allocates the
integer ids of `_get_next_id`) and an optional notification method. -/
structure RpcMsg where
  id : Option Nat
  method : Option String := none

/-- Dispatch of one incoming message by the reader (lines 337-351): a
message whose id matches a pending request resolves exactly that entry and
removes it; anything else leaves the correlator untouched.  Returns the new
correlator and the resolved `(slot, id)` pair, if any. -/
def handleMessage (pending : List (Nat × Nat)) (msg : RpcMsg) :
    List (Nat × Nat) × Option (Nat × Nat) :=
  match msg.id with
  | some rid =>
    match dictGet pending rid with
    | some slot => (dictDel pending rid, some (slot, rid))
    | none => (pending, none)
  | none => (pending, none)

/-- Deadline passed to `asyncio.wait_for` in `send_request` (line 289). -/
def requestTimeout : Nat := 30

/-- Model of `send_request` (lines 264-296): raise if the process is gone;
register the pending request; then either the reader resolves the future
(and removes the entry) or the deadline elapses, in which case the entry is
evicted and `TimeoutError` is raised. -/
def send_request (st : State) (reqId slot : Nat) (w : WaitOutcome) :
    Except TransportErr JValue × State :=
  if !st.processAlive then (.error .notRunning, st)
  else
    let pend1 := dictInsert reqId slot st.pending_requests
    match w with
    | .resolved r => (.ok r, { st with pending_requests := dictDel pend1 reqId })
    | .timedOut => (.error (.timeout reqId), { st with pending_requests := dictDel pend1 reqId })

end Stdio

/-! ## `src/mcp/transport/sse.py` — `SSETransport` -/

namespace SSE

/-- Transport state: the HTTP session, the handshake flag, the id counter
and the pending-request correlator. -/
structure State where
  hasSession : Bool
  initialized : Bool
  request_id : Nat
  pending_requests : List (Nat × Nat)

/-- Model of `_get_next_id` (lines 385-393), identical to the stdio one. -/
def _get_next_id (request_id : Nat) : Nat × Nat :=
  (request_id + 1, request_id + 1)

/-- Identifiers produced by `n` consecutive `_get_next_id` calls. -/
def allocIds : Nat → Nat → List Nat
  | _, 0 => []
  | s, n + 1 =>
    let p := _get_next_id s
    p.1 :: allocIds p.2 n

/-- Deadline passed to `asyncio.wait_for` in `send_request` (line 303). -/
def requestTimeout : Nat := 30

/-- Model of `send_request` (lines 260-310): raise if no session;
register the pending request; POST it.  An exception while posting evicts
the entry and raises `RuntimeError`.  A non-202 status short-circuits: the
POST body is the response (a body that fails to parse is an exception
inside the same `try`, hence also evicts and raises).  On 202 the caller
waits on the future: resolution by the SSE listener (which removes the
entry), or eviction plus `TimeoutError` at the deadline. -/
def send_request (st : State) (reqId slot : Nat) (post : HttpPost) (w : WaitOutcome) :
    Except TransportErr JValue × State :=
  if !st.hasSession then (.error .notRunning, st)
  else
    let pend1 := dictInsert reqId slot st.pending_requests
    match post with
    | .raised => (.error .sendFailed, { st with pending_requests := dictDel pend1 reqId })
    | .resp status body =>
      if status ≠ 202 then
        match body with
        | some v => (.ok v, { st with pending_requests := dictDel pend1 reqId })
        | none => (.error .sendFailed, { st with pending_requests := dictDel pend1 reqId })
      else
        match w with
        | .resolved r => (.ok r, { st with pending_requests := dictDel pend1 reqId })
        | .timedOut =>
          (.error (.timeout reqId), { st with pending_requests := dictDel pend1 reqId })

end SSE

/-! ## Python `int(str)` -/

def pyIntDigitsAux : Nat → List Char → Option Nat
  | acc, [] => some acc
  | acc, c :: cs =>
    if isDigitCh c then pyIntDigitsAux (10 * acc + (c.toNat - 48)) cs
    else if c = '_' then
      match cs with
      | d :: _ => if isDigitCh d then pyIntDigitsAux acc cs else none
      | [] => none
    else none

/-- Digit run accepted by `int()`: ASCII digits with single underscores
strictly between digits. -/
def pyIntDigits (cs : List Char) : Option Nat :=
  match cs with
  | c :: rest => if isDigitCh c then pyIntDigitsAux (c.toNat - 48) rest else none
  | [] => none

/-- Model of Python `int(s)` for a string: surrounding whitespace stripped,
optional sign, then digits; `none` models `ValueError`.  Digits are ASCII
(Python additionally accepts other Unicode decimal digits, which the
command-line port arguments this is applied to do not use); both embedded
port extractors share this model, so their comparison is unaffected. -/
def pyIntOfString (s : String) : Option Int :=
  let cs := ((s.data.dropWhile MCPFormatter.isPyWs).reverse.dropWhile MCPFormatter.isPyWs).reverse
  match cs with
  | '+' :: rest => (pyIntDigits rest).map (fun n => (n : Int))
  | '-' :: rest => (pyIntDigits rest).map (fun n => -(n : Int))
  | _ => (pyIntDigits cs).map (fun n => (n : Int))

/-! ## `src/mcp/server_manager/controller.py` — `MCPServerController` -/

namespace Ctrl

/-- Stored server configuration (`self.config.get_server(server_id)`). -/
structure ServerConfig where
  command : String
  args : List String
  env : List (String × String) := []
  url : Option String := none

/-- Entry of the module-level `running_servers` map (lines 154-162); log
buffer omitted (irrelevant to the claims). -/
structure ProcessInfo where
  pid : Nat
  command : String
  args : List String
  url : String
  status : String

/-- Controller state: the `running_servers` map, the configured servers,
and the statuses recorded by `config.update_server_status`. -/
structure State where
  running_servers : List (String × ProcessInfo)
  configs : List (String × ServerConfig)
  statuses : List (String × String)

/-- World oracle for `stop_server` on the POSIX branch: whether
`os.killpg(os.getpgid(pid), SIGTERM)` raises (process group already gone),
whether `process.wait(timeout=5)` raises `TimeoutExpired`, and whether the
escalation `os.killpg(..., SIGKILL)` raises. -/
structure StopWorld where
  termRaises : Bool
  waitTimesOut : Bool
  killRaises : Bool

/-- Result dict of the controller operations. -/
structure OpResult where
  success : Bool
  status : String
  message : String
  process_id : Option Nat := none
  url : Option String := none

/-- Model of `stop_server` (lines 212-288, POSIX branch).  An id with no
`running_servers` entry returns a `not_running` failure.  A raising SIGTERM
lands in the outer `except Exception` (line 281): error result, entry kept.
A clean wait removes the entry and records `stopped`.  A wait timeout
escalates to SIGKILL: on success the entry is removed and `stopped`
recorded; a raising SIGKILL returns an error with the entry kept. -/
def stop_server (st : State) (sid : String) (w : StopWorld) : OpResult × State :=
  match dictGet st.running_servers sid with
  | none => ({success := false, status := "not_running", message := "Server is not running"}, st)
  | some _ =>
    if w.termRaises then
      ({success := false, status := "error", message := "Error stopping server"}, st)
    else if !w.waitTimesOut then
      ({success := true, status := "stopped", message := "Server stopped successfully"},
       { st with running_servers := dictDel st.running_servers sid,
                 statuses := dictInsert sid "stopped" st.statuses })
    else if w.killRaises then
      ({success := false, status := "error", message := "Error stopping server"}, st)
    else
      ({success := true, status := "stopped", message := "Server forcefully stopped"},
       { st with running_servers := dictDel st.running_servers sid,
                 statuses := dictInsert sid "stopped" st.statuses })

/-- Model of `_extract_port_from_args` (lines 563-583): scan every
`"--port"` that has a following argument; the first one whose value parses
as an int wins (`break`); a `ValueError` just moves on (`pass`). -/
def _extract_port_from_args : List String → Int
  | [] => 3500
  | [_] => 3500
  | a :: b :: rest =>
    if a = "--port" then
      match pyIntOfString b with
      | some n => n
      | none => _extract_port_from_args (b :: rest)
    else _extract_port_from_args (b :: rest)

/-- World oracle for `start_server`: liveness of an existing entry's
process, availability of the `uv`/`uvx` launchers, the spawn outcome
(`none` = `FileNotFoundError`), readiness polling, and the stop behaviour
used when readiness fails. -/
structure StartWorld where
  existingAlive : Bool
  uvOk : Bool
  uvxOk : Bool
  spawn : Option Nat
  ready : Bool
  stopW : StopWorld

/-- Launcher fallback (lines 83-109): a missing `uv` becomes `npx` with a
leading `run` replaced by `-y`; a missing `uvx` becomes `npx` with `-y`
prepended to nonempty args. -/
def resolveCommand (command : String) (args : List String) (uvOk uvxOk : Bool) :
    String × List String :=
  let p1 :=
    if command = "uv" ∧ uvOk = false then
      ("npx", match args with
              | a0 :: restA => if a0 = "run" then "-y" :: restA else a0 :: restA
              | [] => [])
    else (command, args)
  if p1.1 = "uvx" ∧ uvxOk = false then
    ("npx", match p1.2 with | [] => [] | a0 :: restA => "-y" :: a0 :: restA)
  else p1

/-- Spawn path of `start_server` (lines 67-210): config lookup, command
resolution, URL derivation, spawn, then the readiness wait; on readiness
failure the freshly stored instance is stopped again. -/
def startSpawn (st : State) (sid : String) (w : StartWorld) : OpResult × State × List Event :=
  match dictGet st.configs sid with
  | none =>
    ({success := false, status := "error",
      message := "Server with ID " ++ sid ++ " not found"}, st, [])
  | some cfg =>
    let rc := resolveCommand cfg.command cfg.args w.uvOk w.uvxOk
    let url :=
      match cfg.url with
      | some u =>
        if u = "" then "http://localhost:" ++ toString ( _extract_port_from_args rc.2) else u
      | none => "http://localhost:" ++ toString ( _extract_port_from_args rc.2)
    match w.spawn with
    | none =>
      ({success := false, status := "error",
        message := "Command not found: " ++ rc.1}, st, [])
    | some pid =>
      let info : ProcessInfo :=
        {pid := pid, command := rc.1, args := rc.2, url := url, status := "starting"}
      let st1 := { st with running_servers := dictInsert sid info st.running_servers }
      let ev := [Event.spawned rc.1 rc.2 pid]
      if w.ready then
        let st2 := { st1 with
          running_servers := dictInsert sid { info with status := "running" } st1.running_servers,
          statuses := dictInsert sid "running" st1.statuses }
        ({success := true, status := "running", message := "Server started successfully",
          process_id := some pid, url := some url}, st2, ev)
      else
        let stopped := stop_server st1 sid w.stopW
        ({success := false, status := "error",
          message := "Server failed to respond within the timeout period"}, stopped.2, ev)

/-- Model of `start_server` (lines 44-210): an existing entry whose process
is alive short-circuits with the existing pid and no spawn; otherwise the
spawn path runs. -/
def start_server (st : State) (sid : String) (w : StartWorld) : OpResult × State × List Event :=
  match dictGet st.running_servers sid with
  | some info =>
    if w.existingAlive then
      ({success := true, status := "running", message := "Server is already running",
        process_id := some info.pid}, st, [])
    else startSpawn st sid w
  | none => startSpawn st sid w

end Ctrl

/-! ## `src/backend/open_webui/mcp/server_manager.py` — `MCPServerController` -/

namespace Backend

/-- The `MCPServer` pydantic model (lines 28-40). -/
structure MCPServer where
  id : String
  name : String
  type : String
  description : Option String := none
  command : String
  args : List String := []
  env : List (String × String) := []
  url : String
  status : String := "disconnected"
  apiKey : Option String := none
  pid : Option Nat := none

/-- Controller state: the `self.servers` dict (file persistence elided —
`save_servers` swallows its own errors and never changes `self.servers`). -/
structure State where
  servers : List (String × MCPServer)

/-- Python truthiness of the `pid` field (`server.pid` is falsy when `None`
or `0`). -/
def pidTruthy : Option Nat → Bool
  | none => false
  | some p => decide (p ≠ 0)

/-- Outcome of probing an existing pid with `psutil.Process(pid)`:
the process is running; it exists but `is_running()` is false; or the
lookup raises `NoSuchProcess`/`AccessDenied`. -/
inductive AliveCheck where
  | running
  | deadNoReset
  | raisedReset

/-- Outcome of the inner termination block of `stop_server` (lines
336-353); every variant is swallowed there. -/
inductive TermOutcome where
  | cleanStop
  | forcedKill
  | noSuchProcess
  | accessDenied
  | otherError

structure StartWorld where
  alive : AliveCheck
  spawn : Option Nat

structure StartResult where
  success : Bool
  message : Option String := none
  error : Option String := none
  pid : Option Nat := none

structure StopResult where
  success : Bool
  message : Option String := none
  error : Option String := none

structure StatusResult where
  success : Bool
  status : Option String := none
  pid : Option Nat := none
  error : Option String := none

structure ToolResult where
  success : Bool
  result : Option JValue := none
  error : Option JValue := none

/-- Spawn block of `start_server` (lines 260-299): a raising `Popen`
returns an error with the state untouched; otherwise the server object is
marked connected with the new pid. -/
def spawnPath (st : State) (sid : String) (server : MCPServer) (w : StartWorld) :
    StartResult × State × List Event :=
  match w.spawn with
  | none => ({success := false, error := some "Error starting server"}, st, [])
  | some pid =>
    let server' := { server with status := "connected", pid := some pid }
    ({success := true, message := some ("Server " ++ server.name ++ " started"),
      pid := some pid},
     { st with servers := dictInsert sid server' st.servers },
     [Event.spawned server.command server.args pid])

/-- Model of `start_server` (lines 223-305): unknown id fails; a connected
entry with a truthy pid is probed — alive short-circuits with the existing
pid and no spawn, a raising probe resets status/pid before spawning, a
false `is_running()` falls through to the spawn without resetting. -/
def start_server (st : State) (sid : String) (w : StartWorld) :
    StartResult × State × List Event :=
  match dictGet st.servers sid with
  | none => ({success := false, error := some ("Server " ++ sid ++ " not found")}, st, [])
  | some server =>
    if decide (server.status = "connected") && pidTruthy server.pid then
      match w.alive with
      | .running =>
        ({success := true, message := some ("Server " ++ server.name ++ " is already running"),
          pid := server.pid}, st, [])
      | .deadNoReset => spawnPath st sid server w
      | .raisedReset =>
        let server' := { server with status := "disconnected", pid := none }
        spawnPath { st with servers := dictInsert sid server' st.servers } sid server' w
    else spawnPath st sid server w

/-- Model of `stop_server` (lines 307-371): unknown id fails; a
not-connected or pid-less entry is a no-op success; otherwise every
termination outcome — clean stop, forced kill after the wait, a raising
`psutil` lookup because the process already exited, or any other error —
is swallowed (lines 349-353) and the server is marked disconnected with the
pid cleared. -/
def stop_server (st : State) (sid : String) (_w : TermOutcome) : StopResult × State :=
  match dictGet st.servers sid with
  | none => ({success := false, error := some ("Server " ++ sid ++ " not found")}, st)
  | some server =>
    if decide (server.status ≠ "connected") || !pidTruthy server.pid then
      ({success := true, message := some ("Server " ++ server.name ++ " is not running")}, st)
    else
      let server' := { server with status := "disconnected", pid := none }
      ({success := true, message := some ("Server " ++ server.name ++ " stopped")},
       { st with servers := dictInsert sid server' st.servers })

/-- Model of `get_server_status` (lines 373-419): a connected entry with a
truthy pid is reconciled against the process table (demoted to
disconnected when gone); the possibly-updated status and pid are
reported. -/
def get_server_status (st : State) (sid : String) (alive : AliveCheck) :
    StatusResult × State :=
  match dictGet st.servers sid with
  | none => ({success := false, error := some ("Server " ++ sid ++ " not found")}, st)
  | some server =>
    if decide (server.status = "connected") && pidTruthy server.pid then
      match alive with
      | .running => ({success := true, status := some server.status, pid := server.pid}, st)
      | _ =>
        ({success := true, status := some "disconnected", pid := none},
         { st with servers :=
            dictInsert sid { server with status := "disconnected", pid := none } st.servers })
    else ({success := true, status := some server.status, pid := server.pid}, st)

/-- Try-block of `execute_tool` after the POST (lines 469-495), in the
`Except` monad: HTTP failure and protocol errors become structured
failures; the membership test and the `["error"]["message"]` indexing can
raise on non-dict values, which the outer handlers catch. -/
def execute_tool_body (w : HttpPost) : Except PyErr ToolResult :=
  match w with
  | .raised => .error .requestError
  | .resp status body =>
    if 400 ≤ status then
      .ok {success := false, error := some (.str ("Error: HTTP " ++ toString status))}
    else
      match body with
      | none => .error .requestError
      | some result =>
        match pyContains "error" result with
        | .error e => .error e
        | .ok true =>
          match pyIndex result "error" with
          | .error e => .error e
          | .ok eobj =>
            match pyIndex eobj "message" with
            | .error e => .error e
            | .ok msg => .ok {success := false, error := some msg}
        | .ok false =>
          match pyGetD result "result" (.str "No result returned") with
          | .error e => .error e
          | .ok res => .ok {success := true, result := some res}

/-- Model of `execute_tool` (lines 421-507): unknown id and not-connected
providers fail before any I/O; otherwise the POST happens and the two
`except` clauses (lines 496-507) convert every raised exception into a
structured failure. -/
def execute_tool (st : State) (sid _tool : String) (_args : JValue) (w : HttpPost) :
    ToolResult × List NetEvent :=
  match dictGet st.servers sid with
  | none => ({success := false, error := some (.str ("Server " ++ sid ++ " not found"))}, [])
  | some server =>
    if decide (server.status ≠ "connected") then
      ({success := false,
        error := some (.str ("Server " ++ server.name ++ " is not running"))}, [])
    else
      let evs := [NetEvent.posted server.url]
      match execute_tool_body w with
      | .ok r => (r, evs)
      | .error .requestError =>
        ({success := false, error := some (.str "Error connecting to MCP server")}, evs)
      | .error _ =>
        ({success := false, error := some (.str "Error executing tool")}, evs)

end Backend

/-! ## `src/mcp/client/bridge.py` — `OllamaMCPBridge` -/

namespace Bridge

/-- Bridge state: the provider URL, the discovered tool list (Ollama-format
dicts) and the name-keyed tool map.  The map is a key/value list; since
`json.loads` keys are Python-hashable values, membership below follows
Python equality for string keys. -/
structure BState where
  server_url : String
  tools : List JValue := []
  tool_map : List (JValue × JValue) := []

/-- Model of `_convert_tools_to_ollama_format` (lines 270-299): iterate the
raw `tools` value and wrap each element as
`{type: "function", function: {name, description, parameters}}`; `.get`
on a non-dict element raises `AttributeError`. -/
def _convert_tools_to_ollama_format (tools : JValue) : Except PyErr (List JValue) :=
  match pyIter tools with
  | .error e => .error e
  | .ok elems => convertEach elems
where
  convertEach : List JValue → Except PyErr (List JValue)
    | [] => .ok []
    | t :: rest =>
      match pyGetD t "name" (.str "") with
      | .error e => .error e
      | .ok nm =>
        match pyGetD t "description" (.str "Unknown tool") with
        | .error e => .error e
        | .ok ds =>
          match pyGetD t "inputSchema" (.obj []) with
          | .error e => .error e
          | .ok sch =>
            match convertEach rest with
            | .error e => .error e
            | .ok converted =>
              .ok (JValue.obj [("type", .str "function"),
                    ("function", .obj [("name", nm), ("description", ds),
                      ("parameters", sch)])] :: converted)

/-- Try-block of `discover_tools` (lines 69-105): non-200 statuses,
protocol errors and a missing `result.tools` all yield `[]`; the raw tools
value is converted to Ollama format.  Any exception is the `.error` case. -/
def discover_tools_body (w : HttpPost) : Except PyErr (List JValue) :=
  match w with
  | .raised => .error .requestError
  | .resp status body =>
    if status ≠ 200 then .ok []
    else
      match body with
      | none => .error .requestError
      | some rd =>
        match pyContains "error" rd with
        | .error e => .error e
        | .ok true => .ok []
        | .ok false =>
          match pyContains "result" rd with
          | .error e => .error e
          | .ok false => .ok []
          | .ok true =>
            match pyIndex rd "result" with
            | .error e => .error e
            | .ok res =>
              match pyContains "tools" res with
              | .error e => .error e
              | .ok false => .ok []
              | .ok true =>
                match pyIndex res "tools" with
                | .error e => .error e
                | .ok tools => _convert_tools_to_ollama_format tools

/-- Model of `discover_tools` (lines 62-105): the catch-all handler turns
every exception into an empty list. -/
def discover_tools (_st : BState) (w : HttpPost) : List JValue :=
  match discover_tools_body w with
  | .ok ts => ts
  | .error _ => []

/-- The dict comprehension `{tool["name"]: tool for tool in tools}` of
`initialize` (line 55): indexing an Ollama-format dict with `"name"`
raises `KeyError` (those dicts only have `type`/`function` keys). -/
def buildToolMap : List JValue → Except PyErr (List (JValue × JValue))
  | [] => .ok []
  | t :: rest =>
    match pyIndex t "name" with
    | .error e => .error e
    | .ok k =>
      match buildToolMap rest with
      | .error e => .error e
      | .ok m => .ok ((k, t) :: m)

/-- Model of `OllamaMCPBridge.initialize` (lines 37-60; `initialize` is a
Lean keyword, hence the name): an empty discovery is a failure
(`if not tools: return False`); otherwise `self.tools` is assigned and the
tool map is built — a raising comprehension is caught by the outer handler
and also yields `False`, with `self.tools` already mutated. -/
def initializeBridge (st : BState) (w : HttpPost) : Bool × BState :=
  let tools := discover_tools st w
  if tools.isEmpty then (false, st)
  else
    let st1 := { st with tools := tools }
    match buildToolMap tools with
    | .ok tm => (true, { st1 with tool_map := tm })
    | .error _ => (false, st1)

/-- Python `tool_name in self.tool_map` for a string name: hash lookup with
`==`; only string keys can equal a string. -/
def toolMapHas (tm : List (JValue × JValue)) (name : String) : Bool :=
  tm.any (fun p => match p.1 with | .str s => decide (s = name) | _ => false)

/-- Result dict of the bridge's `execute_tool` (`status` plus `result` or
`error`). -/
structure BToolResult where
  status : String
  result : Option JValue := none
  error : Option JValue := none

/-- Try-block of `execute_tool` after the POST (lines 137-172). -/
def execute_tool_body (w : HttpPost) : Except PyErr BToolResult :=
  match w with
  | .raised => .error .otherError
  | .resp status body =>
    if status ≠ 200 then
      .ok {status := "error", error := some (.str ("HTTP error: " ++ toString status))}
    else
      match body with
      | none => .error .otherError
      | some rd =>
        match pyContains "error" rd with
        | .error e => .error e
        | .ok true =>
          match pyIndex rd "error" with
          | .error e => .error e
          | .ok ev => .ok {status := "error", error := some ev}
        | .ok false =>
          match pyContains "result" rd with
          | .error e => .error e
          | .ok false =>
            .ok {status := "error", error := some (.str "Invalid response from MCP server")}
          | .ok true =>
            match pyIndex rd "result" with
            | .error e => .error e
            | .ok res => .ok {status := "success", result := some res}

/-- Shape check of the bridge's `extract_tool_call` (lines 251-266): ONLY
Format 1, `{action, params|parameters}`, is recognized — the
`{tool, tool_input}` and `{name, arguments}` branches of the formatter are
absent here, so any other candidate falls through to the next iteration.
Membership short-circuits, the truthiness chain of
`data.get("params") or data.get("parameters") or {}`, and the type errors
non-dict values raise on `.get`/indexing all mirror the source. -/
def tryToolCallAction (data : JValue) : Except PyErr (Option MCPFormatter.ToolCall) :=
  match pyContains "action" data with
  | .error e => .error e
  | .ok hasAction =>
    match (if hasAction then
             match pyContains "params" data with
             | .error e => .error e
             | .ok true => .ok true
             | .ok false => pyContains "parameters" data
           else .ok false : Except PyErr Bool) with
    | .error e => .error e
    | .ok false => .ok none
    | .ok true =>
      match pyGet data "params" with
      | .error e => .error e
      | .ok p1 =>
        match (if pyTruthy p1 then .ok p1
               else match pyGet data "parameters" with
                    | .error e => .error e
                    | .ok p2 => .ok (if pyTruthy p2 then p2 else JValue.obj [])
               : Except PyErr JValue) with
        | .error e => .error e
        | .ok params =>
          match pyIndex data "action" with
          | .error e => .error e
          | .ok nm => .ok (some (MCPFormatter.ToolCall.mk nm params))

/-- One iteration of the bridge's candidate loop: `json.loads` failure is
caught (`except json.JSONDecodeError: continue`), anything else
propagates. -/
def candStepAction (m : String) : Except PyErr (Option MCPFormatter.ToolCall) :=
  match jsonLoads m with
  | none => .ok none
  | some data => tryToolCallAction data

/-- The `for match in matches` loop of the bridge's `extract_tool_call`. -/
def scanAction : List String → Except PyErr (Option MCPFormatter.ToolCall)
  | [] => .ok none
  | m :: rest =>
    match candStepAction m with
    | .error e => .error e
    | .ok (some c) => .ok (some c)
    | .ok none => scanAction rest

/-- Model of `OllamaMCPBridge.extract_tool_call` (lines 225-268): the regex
scanning and fallback condition are the same pattern literals as the
formatter's (lines 239-249 repeat formatter lines 129-139 verbatim), so the
candidate selection is shared; only the Format 1 shape check differs. -/
def extract_tool_call (response : String) : Except PyErr (Option MCPFormatter.ToolCall) :=
  scanAction ( MCPFormatter.candidates response)

/-- Model of `execute_tool` (lines 107-178): an unknown tool name fails
before any I/O; otherwise the POST happens and the catch-all handler
(lines 173-178) converts every raised exception into a structured error. -/
def execute_tool (st : BState) (tool_name : String) (_args : JValue) (w : HttpPost) :
    BToolResult × List NetEvent :=
  if !toolMapHas st.tool_map tool_name then
    ({status := "error", error := some (.str ("Tool not found: " ++ tool_name))}, [])
  else
    let evs := [NetEvent.posted st.server_url]
    match execute_tool_body w with
    | .ok r => (r, evs)
    | .error _ => ({status := "error", error := some (.str "Error executing tool")}, evs)

end Bridge

/-! ## `src/mcp/transport/utils.py` — `extract_port_from_args` -/

namespace Utils

/-- Model of Python `list.index(x)`: index of the first occurrence, `none`
for the `ValueError` of a missing element. -/
def listIndex (x : String) : List String → Option Nat
  | [] => none
  | a :: rest => if a = x then some 0 else (listIndex x rest).map (· + 1)

/-- Model of `extract_port_from_args` (lines 103-120): index of the first
`"--port"` (a missing one raises `ValueError`, caught); when it has a
following argument, `int` of that argument, with `ValueError` caught;
every caught path returns 3500. -/
def extract_port_from_args (args : List String) : Int :=
  match listIndex "--port" args with
  | none => 3500
  | some i =>
    if i < args.length - 1 then
      match args[i + 1]? with
      | some v =>
        match pyIntOfString v with
        | some n => n
        | none => 3500
      | none => 3500
    else 3500

end Utils

/-- Parse results of the values following each `"--port"`-with-successor
position, in order — the specification-side view used to compare the two
embedded port extractors. -/
def portParses : List String → List (Option Int)
  | [] => []
  | [_] => []
  | a :: b :: rest =>
    (if a = "--port" then [pyIntOfString b] else []) ++ portParses (b :: rest)

/-! ## Helper lemmas about the dict model -/

theorem find?_key_filter {κ α : Type} [DecidableEq κ] (d : List (κ × α)) (k k' : κ)
    (h : k' ≠ k) :
    List.find? (fun p => decide (p.1 = k')) (d.filter (fun p => decide (p.1 ≠ k))) =
      List.find? (fun p => decide (p.1 = k')) d := by
  induction d with
  | nil => rfl
  | cons a t ih =>
    rw [List.filter_cons]
    by_cases hak : a.1 = k
    · have h1 : decide (a.1 ≠ k) = false := by simp [hak]
      have h2 : decide (a.1 = k') = false := by
        simp only [decide_eq_false_iff_not]
        intro hh
        exact h (by rw [← hh, hak])
      rw [h1]
      simp only [Bool.false_eq_true, if_false]
      rw [ih, List.find?, h2]
    · have h1 : decide (a.1 ≠ k) = true := by simp [hak]
      rw [h1]
      simp only [if_true]
      rw [List.find?, List.find?]
      cases hpq : decide (a.1 = k') with
      | true => rfl
      | false => exact ih

theorem dictGet_insert_self {κ α : Type} [DecidableEq κ] (d : List (κ × α)) (k : κ) (v : α) :
    dictGet (dictInsert k v d) k = some v := by
  simp [dictGet, dictInsert, List.find?]

theorem dictGet_insert_ne {κ α : Type} [DecidableEq κ] (d : List (κ × α)) (k k' : κ) (v : α)
    (h : k' ≠ k) : dictGet (dictInsert k v d) k' = dictGet d k' := by
  unfold dictGet dictInsert
  rw [List.find?_cons_of_neg, find?_key_filter d k k' h]
  simp only [decide_eq_true_eq]
  exact fun hh => h hh.symm

theorem dictGet_del_self {κ α : Type} [DecidableEq κ] (d : List (κ × α)) (k : κ) :
    dictGet (dictDel d k) k = none := by
  unfold dictGet dictDel
  have h : List.find? (fun p => decide (p.1 = k)) (d.filter fun p => decide (p.1 ≠ k)) =
      none := by
    rw [List.find?_eq_none]
    intro x hx
    have hmem := List.of_mem_filter hx
    simp only [decide_eq_true_eq] at hmem ⊢
    exact hmem
  rw [h]

theorem dictGet_del_ne {κ α : Type} [DecidableEq κ] (d : List (κ × α)) (k k' : κ)
    (h : k' ≠ k) : dictGet (dictDel d k) k' = dictGet d k' := by
  unfold dictGet dictDel
  rw [find?_key_filter d k k' h]

/-! ## C1 — tool-call extraction: scan order, acceptance, fallback -/

/-- Characterization of the candidate loop: a returned call comes from the
first qualifying candidate, every earlier candidate having been skipped;
and a no-match run means every candidate was skipped. -/
theorem scanCandidates_spec (ms : List String) :
    (∀ c, MCPFormatter.scanCandidates ms = .ok (some c) →
      ∃ (i : Nat) (m : String), ms[i]? = some m ∧ MCPFormatter.candStep m = .ok (some c) ∧
        ∀ j : Nat, j < i → ∃ m', ms[j]? = some m' ∧ MCPFormatter.candStep m' = .ok none) ∧
    (MCPFormatter.scanCandidates ms = .ok none →
      ∀ m ∈ ms, MCPFormatter.candStep m = .ok none) := by
  induction ms with
  | nil =>
    refine ⟨fun c h => ?_, fun _ m hm => absurd hm (List.not_mem_nil m)⟩
    simp [MCPFormatter.scanCandidates] at h
  | cons a rest ih =>
    constructor
    · intro c h
      simp only [MCPFormatter.scanCandidates] at h
      cases hstep : MCPFormatter.candStep a with
      | error e => simp [hstep] at h
      | ok o =>
        cases o with
        | some c' =>
          simp only [hstep] at h
          have hcc : c' = c := by simpa using h
          refine ⟨0, a, by simp, by rw [hstep, hcc], ?_⟩
          intro j hj
          exact absurd hj (Nat.not_lt_zero j)
        | none =>
          simp only [hstep] at h
          obtain ⟨i, m, hm, hq, hearl⟩ := ih.1 c h
          refine ⟨i + 1, m, by simpa using hm, hq, ?_⟩
          intro j hj
          cases j with
          | zero => exact ⟨a, by simp, hstep⟩
          | succ j' =>
            obtain ⟨m', hm', hq'⟩ := hearl j' (Nat.lt_of_succ_lt_succ hj)
            exact ⟨m', by simpa using hm', hq'⟩
    · intro h m hm
      simp only [MCPFormatter.scanCandidates] at h
      cases hstep : MCPFormatter.candStep a with
      | error e => simp [hstep] at h
      | ok o =>
        cases o with
        | some c' => simp [hstep] at h
        | none =>
          simp only [hstep] at h
          rcases List.mem_cons.mp hm with hma | hm'
          · rw [hma]; exact hstep
          · exact ih.2 h m hm'

/-- Characterization of the bridge's candidate loop, mirroring
`scanCandidates_spec` for the Format-1-only step. -/
theorem scanAction_spec (ms : List String) :
    (∀ c, Bridge.scanAction ms = .ok (some c) →
      ∃ (i : Nat) (m : String), ms[i]? = some m ∧
        Bridge.candStepAction m = .ok (some c) ∧
        ∀ j : Nat, j < i → ∃ m', ms[j]? = some m' ∧
          Bridge.candStepAction m' = .ok none) ∧
    (Bridge.scanAction ms = .ok none →
      ∀ m ∈ ms, Bridge.candStepAction m = .ok none) := by
  induction ms with
  | nil =>
    refine ⟨fun c h => ?_, fun _ m hm => absurd hm (List.not_mem_nil m)⟩
    simp [Bridge.scanAction] at h
  | cons a rest ih =>
    constructor
    · intro c h
      simp only [Bridge.scanAction] at h
      cases hstep : Bridge.candStepAction a with
      | error e => simp [hstep] at h
      | ok o =>
        cases o with
        | some c' =>
          simp only [hstep] at h
          have hcc : c' = c := by simpa using h
          refine ⟨0, a, by simp, by rw [hstep, hcc], ?_⟩
          intro j hj
          exact absurd hj (Nat.not_lt_zero j)
        | none =>
          simp only [hstep] at h
          obtain ⟨i, m, hm, hq, hearl⟩ := ih.1 c h
          refine ⟨i + 1, m, by simpa using hm, hq, ?_⟩
          intro j hj
          cases j with
          | zero => exact ⟨a, by simp, hstep⟩
          | succ j' =>
            obtain ⟨m', hm', hq'⟩ := hearl j' (Nat.lt_of_succ_lt_succ hj)
            exact ⟨m', by simpa using hm', hq'⟩
    · intro h m hm
      simp only [Bridge.scanAction] at h
      cases hstep : Bridge.candStepAction a with
      | error e => simp [hstep] at h
      | ok o =>
        cases o with
        | some c' => simp [hstep] at h
        | none =>
          simp only [hstep] at h
          rcases List.mem_cons.mp hm with hma | hm'
          · rw [hma]; exact hstep
          · exact ih.2 h m hm'

/-- C1 (amended).  Both extractors scan the fenced-JSON candidates and fall
back to brace-delimited snippets only when the fenced pattern matched
nothing at all (this selection is `candidates`).  In the formatter
(`MCPFormatter.extract_tool_call_from_content`), a returned call is the
normalization of the first candidate that parses as JSON and matches one of
the three recognized shapes, all earlier candidates having been skipped, and
a no-match result means no candidate qualified.  In the bridge variant
(`OllamaMCPBridge.extract_tool_call`) the same first-match discipline holds,
but a candidate qualifies only through the `{action, params|parameters}`
shape — the last conjunct states that every call the bridge's shape check
accepts comes from a value containing the key `action`, so
`{tool, tool_input}` / `{name, arguments}` candidates are never returned
(`c1_counterexample` exhibits both this and the fenced-fallback divergence
refuting the original claim; candidates parsing to non-dict JSON can raise
instead of being skipped, which the `Except` codomain records). -/
theorem c1_extract_scan_amended (content : String) :
    (∀ c, MCPFormatter.extract_tool_call_from_content content = .ok (some c) →
      ∃ (i : Nat) (m : String), (MCPFormatter.candidates content)[i]? = some m ∧
        MCPFormatter.candStep m = .ok (some c) ∧
        ∀ j : Nat, j < i → ∃ m', (MCPFormatter.candidates content)[j]? = some m' ∧
          MCPFormatter.candStep m' = .ok none) ∧
    (MCPFormatter.extract_tool_call_from_content content = .ok none →
      ∀ m ∈ MCPFormatter.candidates content, MCPFormatter.candStep m = .ok none) ∧
    (∀ c, Bridge.extract_tool_call content = .ok (some c) →
      ∃ (i : Nat) (m : String), (MCPFormatter.candidates content)[i]? = some m ∧
        Bridge.candStepAction m = .ok (some c) ∧
        ∀ j : Nat, j < i → ∃ m', (MCPFormatter.candidates content)[j]? = some m' ∧
          Bridge.candStepAction m' = .ok none) ∧
    (Bridge.extract_tool_call content = .ok none →
      ∀ m ∈ MCPFormatter.candidates content, Bridge.candStepAction m = .ok none) ∧
    (∀ (data : JValue) (c : MCPFormatter.ToolCall),
      Bridge.tryToolCallAction data = .ok (some c) →
      pyContains "action" data = .ok true) := by
  refine ⟨fun c h => (scanCandidates_spec (MCPFormatter.candidates content)).1 c h,
    fun h m hm => (scanCandidates_spec (MCPFormatter.candidates content)).2 h m hm,
    fun c h => (scanAction_spec (MCPFormatter.candidates content)).1 c h,
    fun h m hm => (scanAction_spec (MCPFormatter.candidates content)).2 h m hm,
    ?_⟩
  intro data c h
  cases hact : pyContains "action" data with
  | error e => simp [Bridge.tryToolCallAction, hact] at h
  | ok b =>
    cases b with
    | true => rfl
    | false => simp [Bridge.tryToolCallAction, hact] at h

/-- Witness for C1: on the spec's own example text both extractors return
the normalized call `{name: "search", arguments: {q: "x"}}` (it is
Format 1), located as the first qualifying candidate; and the bridge's
shape check, applied to a concrete accepted value, confirms the `action`
key was present. -/
theorem c1_extract_scan_amended_witness :
    (∃ (i : Nat) (m : String),
      (MCPFormatter.candidates
        "```json\n\x7b\"action\": \"search\", \"params\": \x7b\"q\": \"x\"\x7d\x7d\n```")[i]? =
        some m ∧
      MCPFormatter.candStep m =
        .ok (some (MCPFormatter.ToolCall.mk (.str "search") (.obj [("q", .str "x")]))) ∧
      ∀ j : Nat, j < i →
        ∃ m',
          (MCPFormatter.candidates
            "```json\n\x7b\"action\": \"search\", \"params\": \x7b\"q\": \"x\"\x7d\x7d\n```")[j]? =
            some m' ∧ MCPFormatter.candStep m' = .ok none) ∧
    (∃ (i : Nat) (m : String),
      (MCPFormatter.candidates
        "```json\n\x7b\"action\": \"search\", \"params\": \x7b\"q\": \"x\"\x7d\x7d\n```")[i]? =
        some m ∧
      Bridge.candStepAction m =
        .ok (some (MCPFormatter.ToolCall.mk (.str "search") (.obj [("q", .str "x")]))) ∧
      ∀ j : Nat, j < i →
        ∃ m',
          (MCPFormatter.candidates
            "```json\n\x7b\"action\": \"search\", \"params\": \x7b\"q\": \"x\"\x7d\x7d\n```")[j]? =
            some m' ∧ Bridge.candStepAction m' = .ok none) ∧
    pyContains "action" (JValue.obj [("action", .str "a"), ("params", .str "p")]) =
      .ok true :=
  ⟨(c1_extract_scan_amended
      "```json\n\x7b\"action\": \"search\", \"params\": \x7b\"q\": \"x\"\x7d\x7d\n```").1 _ rfl,
   (c1_extract_scan_amended
      "```json\n\x7b\"action\": \"search\", \"params\": \x7b\"q\": \"x\"\x7d\x7d\n```").2.2.1 _ rfl,
   (c1_extract_scan_amended "").2.2.2.2
      (JValue.obj [("action", .str "a"), ("params", .str "p")])
      (MCPFormatter.ToolCall.mk (.str "a") (.str "p")) rfl⟩

/-- Counterexample to C1 as stated, refuting it on both cited sources.
Fallback condition: on the first input the only fenced block (`not json`)
yields no recognized call, so the claim demands the brace scan run — which
would return `{name: "do", arguments: "x"}` — yet the formatter returns no
match, because the code falls back only when the fenced pattern matched
nothing at all (`if not matches:`).  Accepted shapes: on the raw text
`{"tool": "do", "tool_input": "x"}` the claim says the first candidate
matching one of the three shapes is returned, and the formatter indeed
returns the call, but the cited `OllamaMCPBridge.extract_tool_call`
returns no match — it recognizes only `{action, params|parameters}`. -/
theorem c1_counterexample :
    MCPFormatter.extract_tool_call_from_content
        "```json\nnot json\n```\n\x7b\"tool\": \"do\", \"tool_input\": \"x\"\x7d" = .ok none ∧
    MCPFormatter.fencedBlocks
        "```json\nnot json\n```\n\x7b\"tool\": \"do\", \"tool_input\": \"x\"\x7d" =
      ["not json"] ∧
    MCPFormatter.scanCandidates (MCPFormatter.braceMatches
        "```json\nnot json\n```\n\x7b\"tool\": \"do\", \"tool_input\": \"x\"\x7d") =
      .ok (some (MCPFormatter.ToolCall.mk (.str "do") (.str "x"))) ∧
    Bridge.extract_tool_call "\x7b\"tool\": \"do\", \"tool_input\": \"x\"\x7d" = .ok none ∧
    MCPFormatter.extract_tool_call_from_content
        "\x7b\"tool\": \"do\", \"tool_input\": \"x\"\x7d" =
      .ok (some (MCPFormatter.ToolCall.mk (.str "do") (.str "x"))) :=
  ⟨rfl, rfl, rfl, rfl, rfl⟩

/-! ## C10 — the two embedded port extractors -/

/-- A controller scan over values that all fail to parse yields the 3500
default. -/
theorem ctrl_port_allNone (l : List String)
    (h : (portParses l).all Option.isNone = true) :
    Ctrl._extract_port_from_args l = 3500 := by
  induction l with
  | nil => rfl
  | cons a t ih =>
    cases t with
    | nil => rfl
    | cons b rest =>
      simp only [portParses, List.all_append] at h
      by_cases ha : a = "--port"
      · rw [if_pos ha] at h
        have hb : pyIntOfString b = none := by
          rcases hpb : pyIntOfString b with _ | n
          · rfl
          · rw [hpb] at h; simp at h
        simp only [Ctrl._extract_port_from_args, ha, if_pos, hb]
        exact ih (Bool.and_elim_right h)
      · rw [if_neg ha] at h
        simp only [Ctrl._extract_port_from_args, ha, if_neg, if_false]
        exact ih (Bool.and_elim_right h)

/-- Skipping a non-`"--port"` head leaves the utils extractor unchanged. -/
theorem utils_port_cons_ne (a : String) (l : List String) (ha : a ≠ "--port") :
    Utils.extract_port_from_args (a :: l) = Utils.extract_port_from_args l := by
  simp only [Utils.extract_port_from_args, Utils.listIndex, ha, if_neg, if_false]
  rcases hid : Utils.listIndex "--port" l with _ | i
  · rfl
  · simp only [Option.map_some']
    have hlen : (a :: l).length - 1 = l.length := rfl
    by_cases hi : i < l.length - 1
    · have hi' : i + 1 < (a :: l).length - 1 := by
        simp only [hlen]
        omega
      rw [if_pos hi', if_pos hi]
      simp
    · have hi' : ¬ (i + 1 < (a :: l).length - 1) := by
        simp only [hlen]
        have : l ≠ [] := by
          intro hnil
          rw [hnil] at hid
          simp [Utils.listIndex] at hid
        have : 1 ≤ l.length := by
          cases l with
          | nil => exact absurd rfl this
          | cons _ _ => simp
        omega
      rw [if_neg hi', if_neg hi]

/-- A list with no `"--port"` has no parse candidates and no index hit. -/
theorem no_port_aux (l : List String)
    (h : (l.all (fun a => decide (a ≠ "--port"))) = true) :
    portParses l = [] ∧ Utils.listIndex "--port" l = none := by
  induction l with
  | nil => exact ⟨rfl, rfl⟩
  | cons a t ih =>
    simp only [List.all_cons, Bool.and_eq_true, decide_eq_true_eq] at h
    obtain ⟨ha, ht⟩ := h
    have iht := ih (by simpa using ht)
    constructor
    · cases t with
      | nil => rfl
      | cons b rest =>
        simp only [portParses, ha, if_neg, if_false, List.nil_append]
        exact iht.1
    · simp only [Utils.listIndex, ha, if_neg, if_false, iht.2, Option.map_none']

/-- C10 (amended).  The two embedded port extractors
(`utils.extract_port_from_args` and
`MCPServerController._extract_port_from_args`) agree on every argument
list in which the value after the first `"--port"`-with-successor parses
as an integer, and on every list in which no `"--port"` value parses —
in particular both return 3500 when `"--port"` is absent.  They do NOT
agree on every input: when the value after the first `"--port"` is not a
valid integer but a later `"--port"` carries a valid one, the controller
keeps scanning while utils stops at the first occurrence
(`c10_counterexample`). -/
theorem c10_port_extractors_amended :
    (∀ args : List String,
      ((portParses args).head?.getD none).isSome = true ∨
        (portParses args).all Option.isNone = true →
      Utils.extract_port_from_args args = Ctrl._extract_port_from_args args) ∧
    (∀ args : List String, (args.all (fun a => decide (a ≠ "--port"))) = true →
      Utils.extract_port_from_args args = 3500 ∧
        Ctrl._extract_port_from_args args = 3500) := by
  constructor
  · intro args
    induction args with
    | nil => intro _; rfl
    | cons a t ih =>
      intro h
      cases t with
      | nil =>
        by_cases ha : a = "--port"
        · simp [Utils.extract_port_from_args, Utils.listIndex, ha,
            Ctrl._extract_port_from_args]
        · simp [Utils.extract_port_from_args, Utils.listIndex, ha,
            Ctrl._extract_port_from_args]
      | cons b rest =>
        by_cases ha : a = "--port"
        · rcases hpb : pyIntOfString b with _ | n
          · have hall : (portParses (a :: b :: rest)).all Option.isNone = true := by
              rcases h with hhead | hall
              · simp only [portParses, ha, if_pos, hpb, List.head?] at hhead
                simp at hhead
              · exact hall
            simp only [portParses, ha, if_pos, List.all_append] at hall
            have h3500 := ctrl_port_allNone (b :: rest) (Bool.and_elim_right hall)
            simp only [Utils.extract_port_from_args, Utils.listIndex, ha, if_pos,
              Ctrl._extract_port_from_args, hpb]
            simp only [List.length_cons]
            rw [if_pos (by omega)]
            simp only [List.getElem?_cons_succ, List.getElem?_cons_zero, hpb]
            exact h3500.symm
          · simp only [Utils.extract_port_from_args, Utils.listIndex, ha, if_pos,
              Ctrl._extract_port_from_args, hpb]
            simp only [List.length_cons]
            rw [if_pos (by omega)]
            simp only [List.getElem?_cons_succ, List.getElem?_cons_zero, hpb]
        · rw [utils_port_cons_ne a (b :: rest) ha]
          have hctrl : Ctrl._extract_port_from_args (a :: b :: rest) =
              Ctrl._extract_port_from_args (b :: rest) := by
            simp [Ctrl._extract_port_from_args, ha]
          rw [hctrl]
          apply ih
          simpa only [portParses, ha, if_neg, if_false, List.nil_append] using h
  · intro args h
    obtain ⟨hpp, hidx⟩ := no_port_aux args h
    constructor
    · simp [Utils.extract_port_from_args, hidx]
    · exact ctrl_port_allNone args (by simp [hpp])

/-- Witness for C10 (amended): a parsing first `"--port"` value makes the
two extractors agree, and a list without `"--port"` defaults both to
3500. -/
theorem c10_port_extractors_amended_witness :
    Utils.extract_port_from_args ["--port", "8080"] =
        Ctrl._extract_port_from_args ["--port", "8080"] ∧
    (Utils.extract_port_from_args ["serve"] = 3500 ∧
      Ctrl._extract_port_from_args ["serve"] = 3500) :=
  ⟨c10_port_extractors_amended.1 ["--port", "8080"] (Or.inl (by decide)),
   c10_port_extractors_amended.2 ["serve"] (by decide)⟩

/-- Counterexample to C10 as stated: on
`["--port", "abc", "--port", "8080"]` the value after the first `"--port"`
is not a valid integer and a later `"--port"` carries one; utils returns
the 3500 default while the controller returns 8080, so the two functions
do not agree on every input. -/
theorem c10_counterexample :
    Utils.extract_port_from_args ["--port", "abc", "--port", "8080"] = 3500 ∧
    Ctrl._extract_port_from_args ["--port", "abc", "--port", "8080"] = 8080 ∧
    Utils.extract_port_from_args ["--port", "abc", "--port", "8080"] ≠
      Ctrl._extract_port_from_args ["--port", "abc", "--port", "8080"] :=
  ⟨rfl, rfl, by decide⟩

/-! ## C2 / C4 — `stop` semantics in the two controllers -/

/-- C2 (amended).  In the backend manager, stopping a connected provider
with a (nonzero) pid always succeeds, removes the run state (status
`disconnected`, pid cleared) — for every termination outcome, including a
forced kill after the grace period and a `psutil` lookup that raises
because the process had already exited — and `get_server_status` then
reports `disconnected` with no pid.  In the standalone controller the same
holds whenever signaling does not raise (covering the forced-kill path),
but when the termination signal raises because the process group is
already gone, `stop_server` returns an error and LEAVES the
`running_servers` entry in place (`c2_counterexample`). -/
theorem c2_stop_clears_instance_amended :
    (∀ (st : Backend.State) (sid : String) (server : Backend.MCPServer) (p : Nat)
        (w : Backend.TermOutcome),
      dictGet st.servers sid = some server → server.status = "connected" →
      server.pid = some p → p ≠ 0 →
      (Backend.stop_server st sid w).1.success = true ∧
      dictGet (Backend.stop_server st sid w).2.servers sid =
        some { server with status := "disconnected", pid := none } ∧
      (∀ alive : Backend.AliveCheck,
        (Backend.get_server_status (Backend.stop_server st sid w).2 sid alive).1 =
          {success := true, status := some "disconnected", pid := none})) ∧
    (∀ (st : Ctrl.State) (sid : String) (info : Ctrl.ProcessInfo) (w : Ctrl.StopWorld),
      dictGet st.running_servers sid = some info → w.termRaises = false →
      w.killRaises = false →
      (Ctrl.stop_server st sid w).1.success = true ∧
      dictGet (Ctrl.stop_server st sid w).2.running_servers sid = none ∧
      dictGet (Ctrl.stop_server st sid w).2.statuses sid = some "stopped") ∧
    (∀ (st : Ctrl.State) (sid : String) (info : Ctrl.ProcessInfo) (w : Ctrl.StopWorld),
      dictGet st.running_servers sid = some info → w.termRaises = true →
      (Ctrl.stop_server st sid w).1.success = false ∧
      (Ctrl.stop_server st sid w).2 = st) := by
  refine ⟨?_, ?_, ?_⟩
  · intro st sid server p w hlook hconn hpid hp0
    have hcond : (decide (server.status ≠ "connected") || !Backend.pidTruthy server.pid) =
        false := by
      simp [hconn, Backend.pidTruthy, hpid, hp0]
    have hstop : Backend.stop_server st sid w =
        ({success := true, message := some ("Server " ++ server.name ++ " stopped")},
         { servers := dictInsert sid
            ({ server with status := "disconnected", pid := none }) st.servers }) := by
      simp only [Backend.stop_server, hlook, hcond]
      rfl
    refine ⟨by rw [hstop], by rw [hstop]; exact dictGet_insert_self _ _ _, ?_⟩
    intro alive
    rw [hstop]
    simp only [Backend.get_server_status, dictGet_insert_self]
    rfl
  · intro st sid info w hlook hterm hkill
    cases hwait : w.waitTimesOut with
    | false =>
      have hstop : Ctrl.stop_server st sid w =
          ({success := true, status := "stopped", message := "Server stopped successfully"},
           { st with running_servers := dictDel st.running_servers sid,
                     statuses := dictInsert sid "stopped" st.statuses }) := by
        simp only [Ctrl.stop_server, hlook, hterm, hwait]
        rfl
      rw [hstop]
      exact ⟨rfl, dictGet_del_self _ _, dictGet_insert_self _ _ _⟩
    | true =>
      have hstop : Ctrl.stop_server st sid w =
          ({success := true, status := "stopped", message := "Server forcefully stopped"},
           { st with running_servers := dictDel st.running_servers sid,
                     statuses := dictInsert sid "stopped" st.statuses }) := by
        simp only [Ctrl.stop_server, hlook, hterm, hwait, hkill]
        rfl
      rw [hstop]
      exact ⟨rfl, dictGet_del_self _ _, dictGet_insert_self _ _ _⟩
  · intro st sid info w hlook hterm
    have hstop : Ctrl.stop_server st sid w =
        ({success := false, status := "error", message := "Error stopping server"}, st) := by
      simp only [Ctrl.stop_server, hlook, hterm]
      rfl
    rw [hstop]
    exact ⟨rfl, rfl⟩

/-- Witness for C2 (amended), at a one-provider state: the backend stop
clears the instance even when the process lookup raises because the
process already exited; the standalone controller clears it on the
forced-kill path. -/
theorem c2_stop_clears_instance_amended_witness :
    ((Backend.stop_server
        ⟨[("a", {id := "a", name := "fs", type := "stdio", command := "npx",
                 url := "http://localhost:3500", status := "connected",
                 pid := some 7})]⟩ "a" Backend.TermOutcome.noSuchProcess).1.success = true ∧
      dictGet (Backend.stop_server
        ⟨[("a", {id := "a", name := "fs", type := "stdio", command := "npx",
                 url := "http://localhost:3500", status := "connected",
                 pid := some 7})]⟩ "a" Backend.TermOutcome.noSuchProcess).2.servers "a" =
        some {id := "a", name := "fs", type := "stdio", command := "npx",
              url := "http://localhost:3500", status := "disconnected", pid := none} ∧
      (∀ alive : Backend.AliveCheck,
        (Backend.get_server_status (Backend.stop_server
          ⟨[("a", {id := "a", name := "fs", type := "stdio", command := "npx",
                   url := "http://localhost:3500", status := "connected",
                   pid := some 7})]⟩ "a" Backend.TermOutcome.noSuchProcess).2 "a" alive).1 =
          {success := true, status := some "disconnected", pid := none})) ∧
    ((Ctrl.stop_server
        ⟨[("a", ⟨7, "npx", [], "http://localhost:3500", "running"⟩)], [], []⟩ "a"
        ⟨false, true, false⟩).1.success = true ∧
      dictGet (Ctrl.stop_server
        ⟨[("a", ⟨7, "npx", [], "http://localhost:3500", "running"⟩)], [], []⟩ "a"
        ⟨false, true, false⟩).2.running_servers "a" = none ∧
      dictGet (Ctrl.stop_server
        ⟨[("a", ⟨7, "npx", [], "http://localhost:3500", "running"⟩)], [], []⟩ "a"
        ⟨false, true, false⟩).2.statuses "a" = some "stopped") :=
  ⟨c2_stop_clears_instance_amended.1
      ⟨[("a", {id := "a", name := "fs", type := "stdio", command := "npx",
               url := "http://localhost:3500", status := "connected", pid := some 7})]⟩
      "a" _ 7 Backend.TermOutcome.noSuchProcess rfl rfl rfl (by decide),
   c2_stop_clears_instance_amended.2.1
      ⟨[("a", ⟨7, "npx", [], "http://localhost:3500", "running"⟩)], [], []⟩
      "a" ⟨7, "npx", [], "http://localhost:3500", "running"⟩ ⟨false, true, false⟩
      rfl rfl rfl⟩

/-- Counterexample to C2 as stated.  In the standalone controller, with a
provider that has a RunningInstance and a world in which the SIGTERM
signaling raises because the process (group) has already exited, `stop`
returns a failure and the RunningInstance is NOT removed — contradicting
"the RunningInstance is removed and the provider is marked Stopped …
even when signaling failed because the process had already exited". -/
theorem c2_counterexample :
    (Ctrl.stop_server ⟨[("a", ⟨7, "npx", [], "http://localhost:3500", "running"⟩)], [], []⟩
        "a" ⟨true, false, false⟩).1.success = false ∧
    dictGet (Ctrl.stop_server
        ⟨[("a", ⟨7, "npx", [], "http://localhost:3500", "running"⟩)], [], []⟩
        "a" ⟨true, false, false⟩).2.running_servers "a" =
      some ⟨7, "npx", [], "http://localhost:3500", "running"⟩ :=
  ⟨rfl, rfl⟩

/-- C4 (amended).  A `stop` on a provider with no RunningInstance is a
success no-op only in the backend manager and only for a *configured*
provider (status not connected or no pid); the backend fails on an unknown
id, and the standalone controller fails with status `not_running` for any
id absent from `running_servers` (`c4_counterexample`). -/
theorem c4_stop_noop_amended :
    (∀ (st : Backend.State) (sid : String) (server : Backend.MCPServer)
        (w : Backend.TermOutcome),
      dictGet st.servers sid = some server →
      (decide (server.status ≠ "connected") || !Backend.pidTruthy server.pid) = true →
      (Backend.stop_server st sid w).1 =
        {success := true,
         message := some ("Server " ++ server.name ++ " is not running")} ∧
      (Backend.stop_server st sid w).2 = st) ∧
    (∀ (st : Backend.State) (sid : String) (w : Backend.TermOutcome),
      dictGet st.servers sid = none →
      (Backend.stop_server st sid w).1.success = false ∧
      (Backend.stop_server st sid w).2 = st) ∧
    (∀ (st : Ctrl.State) (sid : String) (w : Ctrl.StopWorld),
      dictGet st.running_servers sid = none →
      (Ctrl.stop_server st sid w).1 =
        {success := false, status := "not_running", message := "Server is not running"} ∧
      (Ctrl.stop_server st sid w).2 = st) := by
  refine ⟨?_, ?_, ?_⟩
  · intro st sid server w hlook hcond
    simp only [Backend.stop_server, hlook, hcond]
    exact ⟨rfl, rfl⟩
  · intro st sid w hlook
    simp [Backend.stop_server, hlook]
  · intro st sid w hlook
    simp [Ctrl.stop_server, hlook]

/-- Witness for C4 (amended) at concrete states: backend no-op success on
a configured, not-running provider; backend failure on an unknown id;
controller `not_running` failure on an id without an instance. -/
theorem c4_stop_noop_amended_witness :
    ((Backend.stop_server
        ⟨[("a", {id := "a", name := "fs", type := "stdio", command := "npx",
                 url := "http://localhost:3500", status := "disconnected",
                 pid := none})]⟩ "a" Backend.TermOutcome.cleanStop).1 =
      {success := true, message := some "Server fs is not running"} ∧
      (Backend.stop_server
        ⟨[("a", {id := "a", name := "fs", type := "stdio", command := "npx",
                 url := "http://localhost:3500", status := "disconnected",
                 pid := none})]⟩ "a" Backend.TermOutcome.cleanStop).2 =
        ⟨[("a", {id := "a", name := "fs", type := "stdio", command := "npx",
                 url := "http://localhost:3500", status := "disconnected",
                 pid := none})]⟩) ∧
    ((Backend.stop_server ⟨[]⟩ "ghost" Backend.TermOutcome.cleanStop).1.success = false ∧
      (Backend.stop_server ⟨[]⟩ "ghost" Backend.TermOutcome.cleanStop).2 =
        (⟨[]⟩ : Backend.State)) ∧
    ((Ctrl.stop_server ⟨[], [], []⟩ "ghost" ⟨false, false, false⟩).1 =
      {success := false, status := "not_running", message := "Server is not running"} ∧
      (Ctrl.stop_server ⟨[], [], []⟩ "ghost" ⟨false, false, false⟩).2 =
        (⟨[], [], []⟩ : Ctrl.State)) :=
  ⟨c4_stop_noop_amended.1
      ⟨[("a", {id := "a", name := "fs", type := "stdio", command := "npx",
               url := "http://localhost:3500", status := "disconnected", pid := none})]⟩
      "a" _ Backend.TermOutcome.cleanStop rfl (by decide),
   c4_stop_noop_amended.2.1 ⟨[]⟩ "ghost" Backend.TermOutcome.cleanStop rfl,
   c4_stop_noop_amended.2.2 ⟨[], [], []⟩ "ghost" ⟨false, false, false⟩ rfl⟩

/-- Counterexample to C4 as stated: in the standalone controller, `stop`
on a provider id with no RunningInstance returns `success = False` with
status `not_running` — not a success no-op. -/
theorem c4_counterexample :
    (Ctrl.stop_server ⟨[], [], []⟩ "mem" ⟨false, false, false⟩).1.success = false ∧
    dictGet (⟨[], [], []⟩ : Ctrl.State).running_servers "mem" = none :=
  ⟨rfl, rfl⟩

/-! ## C3 — `start` idempotence while the process is alive -/

/-- A successful spawn path leaves a `running_servers` entry whose pid is
the returned process id. -/
theorem ctrl_startSpawn_success (st : Ctrl.State) (sid : String) (w : Ctrl.StartWorld)
    (h : (Ctrl.startSpawn st sid w).1.success = true) :
    ∃ info : Ctrl.ProcessInfo,
      dictGet (Ctrl.startSpawn st sid w).2.1.running_servers sid = some info ∧
      (Ctrl.startSpawn st sid w).1.process_id = some info.pid := by
  cases hcfg : dictGet st.configs sid with
  | none => simp [Ctrl.startSpawn, hcfg] at h
  | some cfg =>
    cases hspawn : w.spawn with
    | none => simp [Ctrl.startSpawn, hcfg, hspawn] at h
    | some pid =>
      cases hready : w.ready with
      | false => simp [Ctrl.startSpawn, hcfg, hspawn, hready] at h
      | true =>
        simp only [Ctrl.startSpawn, hcfg, hspawn, hready]
        exact ⟨_, dictGet_insert_self _ _ _, rfl⟩

/-- A successful `start_server` leaves a `running_servers` entry whose pid
is the returned process id. -/
theorem ctrl_start_success_state (st : Ctrl.State) (sid : String) (w : Ctrl.StartWorld)
    (h : (Ctrl.start_server st sid w).1.success = true) :
    ∃ info : Ctrl.ProcessInfo,
      dictGet (Ctrl.start_server st sid w).2.1.running_servers sid = some info ∧
      (Ctrl.start_server st sid w).1.process_id = some info.pid := by
  cases hrun : dictGet st.running_servers sid with
  | none =>
    simp only [Ctrl.start_server, hrun] at h ⊢
    exact ctrl_startSpawn_success st sid w h
  | some info =>
    cases halive : w.existingAlive with
    | true =>
      simp [Ctrl.start_server, hrun, halive]
    | false =>
      simp [Ctrl.start_server, hrun, halive] at h ⊢
      exact ctrl_startSpawn_success st sid w h

/-- A successful backend spawn path leaves a connected server entry whose
pid is the returned pid. -/
theorem backend_spawnPath_success (st : Backend.State) (sid : String)
    (server : Backend.MCPServer) (w : Backend.StartWorld)
    (h : (Backend.spawnPath st sid server w).1.success = true) :
    ∃ server' : Backend.MCPServer,
      dictGet (Backend.spawnPath st sid server w).2.1.servers sid = some server' ∧
      server'.status = "connected" ∧
      (Backend.spawnPath st sid server w).1.pid = server'.pid := by
  cases hspawn : w.spawn with
  | none => simp [Backend.spawnPath, hspawn] at h
  | some pid =>
    simp only [Backend.spawnPath, hspawn]
    exact ⟨_, dictGet_insert_self _ _ _, rfl, rfl⟩

/-- A successful backend `start_server` leaves a connected server entry
whose pid is the returned pid. -/
theorem backend_start_success_state (st : Backend.State) (sid : String)
    (w : Backend.StartWorld)
    (h : (Backend.start_server st sid w).1.success = true) :
    ∃ server' : Backend.MCPServer,
      dictGet (Backend.start_server st sid w).2.1.servers sid = some server' ∧
      server'.status = "connected" ∧
      (Backend.start_server st sid w).1.pid = server'.pid := by
  cases hlook : dictGet st.servers sid with
  | none => simp [Backend.start_server, hlook] at h
  | some server =>
    cases hcond : (decide (server.status = "connected") && Backend.pidTruthy server.pid) with
    | false =>
      simp only [Backend.start_server, hlook, hcond, Bool.false_eq_true, if_false] at h ⊢
      exact backend_spawnPath_success st sid server w h
    | true =>
      cases halive : w.alive with
      | running =>
        have hc := (Bool.and_eq_true _ _).mp hcond
        have hs : server.status = "connected" := by simpa using hc.1
        simp [Backend.start_server, hlook, hcond, halive, hs, hc.2]
      | deadNoReset =>
        simp only [Backend.start_server, hlook, hcond, if_true] at h ⊢
        rw [halive] at h ⊢
        exact backend_spawnPath_success st sid server w h
      | raisedReset =>
        simp only [Backend.start_server, hlook, hcond, if_true] at h ⊢
        rw [halive] at h ⊢
        exact backend_spawnPath_success _ sid _ w h

/-- C3.  In both controllers, when a `start` succeeded and the started
process is still alive, a second `start` without an intervening `stop` is
idempotent: it returns success with the same process id, leaves the state
unchanged, and spawns nothing (no events).  For the backend the stored pid
must be nonzero — OS pids are — since a zero pid is falsy in the Python
`server.pid` truthiness test. -/
theorem c3_start_idempotent :
    (∀ (st : Ctrl.State) (sid : String) (w1 w2 : Ctrl.StartWorld),
      (Ctrl.start_server st sid w1).1.success = true → w2.existingAlive = true →
      ∃ p : Nat, (Ctrl.start_server st sid w1).1.process_id = some p ∧
        Ctrl.start_server (Ctrl.start_server st sid w1).2.1 sid w2 =
          ({success := true, status := "running", message := "Server is already running",
            process_id := some p}, (Ctrl.start_server st sid w1).2.1, [])) ∧
    (∀ (st : Backend.State) (sid : String) (w1 w2 : Backend.StartWorld) (p : Nat),
      (Backend.start_server st sid w1).1.success = true →
      (Backend.start_server st sid w1).1.pid = some p → p ≠ 0 →
      w2.alive = Backend.AliveCheck.running →
      ∃ server' : Backend.MCPServer,
        dictGet (Backend.start_server st sid w1).2.1.servers sid = some server' ∧
        Backend.start_server (Backend.start_server st sid w1).2.1 sid w2 =
          ({success := true,
            message := some ("Server " ++ server'.name ++ " is already running"),
            pid := some p}, (Backend.start_server st sid w1).2.1, [])) := by
  constructor
  · intro st sid w1 w2 h1 halive
    obtain ⟨info, hlook, hpid⟩ := ctrl_start_success_state st sid w1 h1
    refine ⟨info.pid, hpid, ?_⟩
    generalize hg : (Ctrl.start_server st sid w1).2.1 = st1 at hlook ⊢
    simp [Ctrl.start_server, hlook, halive]
  · intro st sid w1 w2 p h1 hpid hp0 halive
    obtain ⟨server', hlook, hstat, hpid'⟩ := backend_start_success_state st sid w1 h1
    refine ⟨server', hlook, ?_⟩
    have hps : server'.pid = some p := by rw [← hpid', hpid]
    have hcond : (decide (server'.status = "connected") && Backend.pidTruthy server'.pid) =
        true := by
      simp [hstat, Backend.pidTruthy, hps, hp0]
    have hpt : Backend.pidTruthy (some p) = true := by simp [Backend.pidTruthy, hp0]
    generalize hg : (Backend.start_server st sid w1).2.1 = st1 at hlook ⊢
    simp [Backend.start_server, hlook, hcond, halive, hps, hstat, hpt]

/-- Witness for C3 at concrete states: a first successful `start` followed
by a second `start` with the process alive returns the same pid (7),
leaves the state unchanged and spawns nothing, in both controllers. -/
theorem c3_start_idempotent_witness :
    (∃ p : Nat,
      (Ctrl.start_server
        ⟨[("a", ⟨7, "npx", [], "http://localhost:3500", "running"⟩)], [], []⟩ "a"
        ⟨true, true, true, none, false, ⟨false, false, false⟩⟩).1.process_id = some p ∧
      Ctrl.start_server
        (Ctrl.start_server
          ⟨[("a", ⟨7, "npx", [], "http://localhost:3500", "running"⟩)], [], []⟩ "a"
          ⟨true, true, true, none, false, ⟨false, false, false⟩⟩).2.1 "a"
        ⟨true, true, true, none, false, ⟨false, false, false⟩⟩ =
        ({success := true, status := "running", message := "Server is already running",
          process_id := some p},
         (Ctrl.start_server
           ⟨[("a", ⟨7, "npx", [], "http://localhost:3500", "running"⟩)], [], []⟩ "a"
           ⟨true, true, true, none, false, ⟨false, false, false⟩⟩).2.1, [])) ∧
    (∃ server' : Backend.MCPServer,
      dictGet (Backend.start_server
        ⟨[("a", {id := "a", name := "fs", type := "stdio", command := "npx",
                 url := "http://localhost:3500", status := "connected",
                 pid := some 7})]⟩ "a"
        ⟨Backend.AliveCheck.running, none⟩).2.1.servers "a" = some server' ∧
      Backend.start_server
        (Backend.start_server
          ⟨[("a", {id := "a", name := "fs", type := "stdio", command := "npx",
                   url := "http://localhost:3500", status := "connected",
                   pid := some 7})]⟩ "a"
          ⟨Backend.AliveCheck.running, none⟩).2.1 "a"
        ⟨Backend.AliveCheck.running, none⟩ =
        ({success := true,
          message := some ("Server " ++ server'.name ++ " is already running"),
          pid := some 7},
         (Backend.start_server
           ⟨[("a", {id := "a", name := "fs", type := "stdio", command := "npx",
                    url := "http://localhost:3500", status := "connected",
                    pid := some 7})]⟩ "a"
           ⟨Backend.AliveCheck.running, none⟩).2.1, [])) :=
  ⟨c3_start_idempotent.1
      ⟨[("a", ⟨7, "npx", [], "http://localhost:3500", "running"⟩)], [], []⟩ "a"
      ⟨true, true, true, none, false, ⟨false, false, false⟩⟩
      ⟨true, true, true, none, false, ⟨false, false, false⟩⟩ rfl rfl,
   c3_start_idempotent.2
      ⟨[("a", {id := "a", name := "fs", type := "stdio", command := "npx",
               url := "http://localhost:3500", status := "connected", pid := some 7})]⟩
      "a" ⟨Backend.AliveCheck.running, none⟩ ⟨Backend.AliveCheck.running, none⟩ 7
      rfl rfl (by decide) rfl⟩

/-! ## C5 — request-identifier allocation and correlation -/

/-- Identifiers allocated from counter value `s` are all above `s` and
strictly increasing. -/
theorem stdio_allocIds_pairwise :
    ∀ (n s : Nat), (∀ x ∈ Stdio.allocIds s n, s < x) ∧
      (Stdio.allocIds s n).Pairwise (· < ·)
  | 0, s => by
    constructor
    · intro x hx
      simp [Stdio.allocIds] at hx
    · simp [Stdio.allocIds]
  | n + 1, s => by
    obtain ⟨hmem, hpw⟩ := stdio_allocIds_pairwise n (s + 1)
    simp only [Stdio.allocIds, Stdio._get_next_id]
    constructor
    · intro x hx
      rcases List.mem_cons.mp hx with hx0 | hxt
      · omega
      · exact Nat.lt_trans (Nat.lt_succ_self s) (hmem x hxt)
    · exact List.Pairwise.cons (fun y hy => hmem y hy) hpw

/-- The two transports allocate identically. -/
theorem sse_allocIds_eq : ∀ (n s : Nat), SSE.allocIds s n = Stdio.allocIds s n
  | 0, _ => rfl
  | n + 1, s => by
    simp only [SSE.allocIds, Stdio.allocIds, SSE._get_next_id, Stdio._get_next_id]
    exact congrArg _ (sse_allocIds_eq n (s + 1))

/-- C5.  Per transport instance, consecutive `_get_next_id` calls produce
strictly increasing — hence pairwise distinct — request identifiers, on
both transports; and the reader's dispatch resolves a pending slot only
for the message carrying that slot's own identifier, leaving every other
pending entry in place. -/
theorem c5_request_ids_unique :
    (∀ s n : Nat, (Stdio.allocIds s n).Pairwise (· < ·)) ∧
    (∀ s n : Nat, (SSE.allocIds s n).Pairwise (· < ·)) ∧
    (∀ (pending : List (Nat × Nat)) (msg : Stdio.RpcMsg) (slot rid : Nat),
      (Stdio.handleMessage pending msg).2 = some (slot, rid) →
      msg.id = some rid ∧ dictGet pending rid = some slot) ∧
    (∀ (pending : List (Nat × Nat)) (msg : Stdio.RpcMsg) (k : Nat),
      msg.id ≠ some k →
      dictGet (Stdio.handleMessage pending msg).1 k = dictGet pending k) := by
  refine ⟨fun s n => (stdio_allocIds_pairwise n s).2,
    fun s n => sse_allocIds_eq n s ▸ (stdio_allocIds_pairwise n s).2, ?_, ?_⟩
  · intro pending msg slot rid h
    cases hid : msg.id with
    | none => simp [Stdio.handleMessage, hid] at h
    | some j =>
      cases hget : dictGet pending j with
      | none => simp [Stdio.handleMessage, hid, hget] at h
      | some slot' =>
        simp only [Stdio.handleMessage, hid, hget] at h
        have hinj : slot' = slot ∧ j = rid := by
          have := Option.some.inj h
          exact ⟨congrArg Prod.fst this, congrArg Prod.snd this⟩
        exact ⟨by simp [hid, hinj.2], by rw [← hinj.2, ← hinj.1]; exact hget⟩
  · intro pending msg k hk
    cases hid : msg.id with
    | none => simp [Stdio.handleMessage, hid]
    | some j =>
      cases hget : dictGet pending j with
      | none => simp [Stdio.handleMessage, hid, hget]
      | some slot' =>
        simp only [Stdio.handleMessage, hid, hget]
        exact dictGet_del_ne pending j k (fun hkj => hk (hid ▸ hkj ▸ rfl))

/-- Witness for C5: three allocations from a fresh transport counter give
the strictly increasing ids 1, 2, 3, and a response with id 2 resolves
exactly the slot registered under 2, leaving the entry for 1 in place. -/
theorem c5_request_ids_unique_witness :
    (Stdio.allocIds 0 3).Pairwise (· < ·) ∧
    ((Stdio.handleMessage [(1, 10), (2, 20)] ⟨some 2, none⟩).2 = some (20, 2) →
      (⟨some 2, none⟩ : Stdio.RpcMsg).id = some 2 ∧
        dictGet [(1, 10), (2, 20)] 2 = some 20) ∧
    dictGet (Stdio.handleMessage [(1, 10), (2, 20)] ⟨some 2, none⟩).1 1 =
      dictGet [(1, 10), (2, 20)] 1 :=
  ⟨c5_request_ids_unique.1 0 3,
   fun h => c5_request_ids_unique.2.2.1 [(1, 10), (2, 20)] ⟨some 2, none⟩ 20 2 h,
   c5_request_ids_unique.2.2.2 [(1, 10), (2, 20)] ⟨some 2, none⟩ 1 (by decide)⟩

/-! ## C6 — per-request timeout: eviction without teardown -/

/-- C6.  On both transports the per-call deadline is the fixed 30 seconds,
and when no matching response arrives before it elapses, `send_request`
evicts the PendingRequest entry (its id no longer resolves), surfaces a
timeout error carrying the request id to the caller, leaves every other
pending entry untouched, and does not tear the transport down (process
liveness / session and the handshake flag are unchanged). -/
theorem c6_timeout_evicts :
    (Stdio.requestTimeout = 30 ∧ SSE.requestTimeout = 30) ∧
    (∀ (st : Stdio.State) (reqId slot : Nat), st.processAlive = true →
      (Stdio.send_request st reqId slot .timedOut).1 =
        .error (.timeout reqId) ∧
      dictGet (Stdio.send_request st reqId slot .timedOut).2.pending_requests reqId =
        none ∧
      (∀ k : Nat, k ≠ reqId →
        dictGet (Stdio.send_request st reqId slot .timedOut).2.pending_requests k =
          dictGet st.pending_requests k) ∧
      (Stdio.send_request st reqId slot .timedOut).2.processAlive = st.processAlive ∧
      (Stdio.send_request st reqId slot .timedOut).2.initialized = st.initialized) ∧
    (∀ (st : SSE.State) (reqId slot : Nat) (body : Option JValue),
      st.hasSession = true →
      (SSE.send_request st reqId slot (.resp 202 body) .timedOut).1 =
        .error (.timeout reqId) ∧
      dictGet
          (SSE.send_request st reqId slot (.resp 202 body) .timedOut).2.pending_requests
          reqId = none ∧
      (∀ k : Nat, k ≠ reqId →
        dictGet
            (SSE.send_request st reqId slot (.resp 202 body) .timedOut).2.pending_requests
            k = dictGet st.pending_requests k) ∧
      (SSE.send_request st reqId slot (.resp 202 body) .timedOut).2.hasSession =
        st.hasSession ∧
      (SSE.send_request st reqId slot (.resp 202 body) .timedOut).2.initialized =
        st.initialized) := by
  refine ⟨⟨rfl, rfl⟩, ?_, ?_⟩
  · intro st reqId slot halive
    have hred : Stdio.send_request st reqId slot .timedOut =
        (.error (.timeout reqId),
         { st with pending_requests :=
            dictDel (dictInsert reqId slot st.pending_requests) reqId }) := by
      simp [Stdio.send_request, halive]
    rw [hred]
    refine ⟨rfl, dictGet_del_self _ _, ?_, rfl, rfl⟩
    intro k hk
    rw [dictGet_del_ne _ _ _ hk, dictGet_insert_ne _ _ _ _ hk]
  · intro st reqId slot body hsess
    have hred : SSE.send_request st reqId slot (.resp 202 body) .timedOut =
        (.error (.timeout reqId),
         { st with pending_requests :=
            dictDel (dictInsert reqId slot st.pending_requests) reqId }) := by
      simp [SSE.send_request, hsess]
    rw [hred]
    refine ⟨rfl, dictGet_del_self _ _, ?_, rfl, rfl⟩
    intro k hk
    rw [dictGet_del_ne _ _ _ hk, dictGet_insert_ne _ _ _ _ hk]

/-- Witness for C6 at a concrete transport state with another pending
entry (id 1): a timeout on request 2 yields the timeout error, clears
entry 2, preserves entry 1, and leaves the transport up. -/
theorem c6_timeout_evicts_witness :
    ((Stdio.send_request ⟨true, true, 2, [(1, 10)]⟩ 2 20 .timedOut).1 =
      .error (.timeout 2) ∧
      dictGet (Stdio.send_request ⟨true, true, 2, [(1, 10)]⟩ 2 20
        .timedOut).2.pending_requests 2 = none ∧
      dictGet (Stdio.send_request ⟨true, true, 2, [(1, 10)]⟩ 2 20
        .timedOut).2.pending_requests 1 = dictGet [(1, 10)] 1 ∧
      (Stdio.send_request ⟨true, true, 2, [(1, 10)]⟩ 2 20 .timedOut).2.processAlive =
        true) ∧
    ((SSE.send_request ⟨true, true, 2, [(1, 10)]⟩ 2 20 (.resp 202 none) .timedOut).1 =
      .error (.timeout 2) ∧
      dictGet (SSE.send_request ⟨true, true, 2, [(1, 10)]⟩ 2 20 (.resp 202 none)
        .timedOut).2.pending_requests 2 = none) :=
  ⟨⟨(c6_timeout_evicts.2.1 ⟨true, true, 2, [(1, 10)]⟩ 2 20 rfl).1,
    (c6_timeout_evicts.2.1 ⟨true, true, 2, [(1, 10)]⟩ 2 20 rfl).2.1,
    (c6_timeout_evicts.2.1 ⟨true, true, 2, [(1, 10)]⟩ 2 20 rfl).2.2.1 1 (by decide),
    by rw [(c6_timeout_evicts.2.1 ⟨true, true, 2, [(1, 10)]⟩ 2 20 rfl).2.2.2.1]⟩,
   ⟨(c6_timeout_evicts.2.2 ⟨true, true, 2, [(1, 10)]⟩ 2 20 none rfl).1,
    (c6_timeout_evicts.2.2 ⟨true, true, 2, [(1, 10)]⟩ 2 20 none rfl).2.1⟩⟩

/-! ## C8 — event-stream send path: synchronous short-circuit and send errors -/

/-- C8.  In the SSE transport's `send_request`: a POST answered with any
status other than 202 short-circuits the wait — its parsed body is
returned as the response, the PendingRequest entry is removed, and the
outcome is independent of the asynchronous channel (the same for every
wait outcome); likewise a connection error raised while sending the POST
immediately fails that request with a send error, removing the entry,
independently of the asynchronous channel; other pending entries are
untouched in both cases. -/
theorem c8_sse_short_circuit :
    (∀ (st : SSE.State) (reqId slot status : Nat) (v : JValue) (w w' : WaitOutcome),
      st.hasSession = true → status ≠ 202 →
      (SSE.send_request st reqId slot (.resp status (some v)) w).1 = .ok v ∧
      SSE.send_request st reqId slot (.resp status (some v)) w =
        SSE.send_request st reqId slot (.resp status (some v)) w' ∧
      dictGet (SSE.send_request st reqId slot
          (.resp status (some v)) w).2.pending_requests reqId = none ∧
      (∀ k : Nat, k ≠ reqId →
        dictGet (SSE.send_request st reqId slot
            (.resp status (some v)) w).2.pending_requests k =
          dictGet st.pending_requests k)) ∧
    (∀ (st : SSE.State) (reqId slot : Nat) (w w' : WaitOutcome),
      st.hasSession = true →
      (SSE.send_request st reqId slot .raised w).1 = .error .sendFailed ∧
      SSE.send_request st reqId slot .raised w =
        SSE.send_request st reqId slot .raised w' ∧
      dictGet (SSE.send_request st reqId slot .raised w).2.pending_requests reqId =
        none ∧
      (∀ k : Nat, k ≠ reqId →
        dictGet (SSE.send_request st reqId slot .raised w).2.pending_requests k =
          dictGet st.pending_requests k)) := by
  constructor
  · intro st reqId slot status v w w' hsess hstat
    have hred : ∀ w0 : WaitOutcome,
        SSE.send_request st reqId slot (.resp status (some v)) w0 =
          (.ok v,
           { st with pending_requests :=
              dictDel (dictInsert reqId slot st.pending_requests) reqId }) := by
      intro w0
      simp [SSE.send_request, hsess, hstat]
    refine ⟨by rw [hred w], by rw [hred w, hred w'], ?_, ?_⟩
    · rw [hred w]
      exact dictGet_del_self _ _
    · intro k hk
      rw [hred w]
      exact (dictGet_del_ne _ _ _ hk).trans (dictGet_insert_ne _ _ _ _ hk)
  · intro st reqId slot w w' hsess
    have hred : ∀ w0 : WaitOutcome,
        SSE.send_request st reqId slot .raised w0 =
          (.error .sendFailed,
           { st with pending_requests :=
              dictDel (dictInsert reqId slot st.pending_requests) reqId }) := by
      intro w0
      simp [SSE.send_request, hsess]
    refine ⟨by rw [hred w], by rw [hred w, hred w'], ?_, ?_⟩
    · rw [hred w]
      exact dictGet_del_self _ _
    · intro k hk
      rw [hred w]
      exact (dictGet_del_ne _ _ _ hk).trans (dictGet_insert_ne _ _ _ _ hk)

/-- Witness for C8 at a concrete transport state: a 200-status POST body
is returned directly for both wait outcomes, and a raising POST fails the
request, in both cases clearing the pending entry. -/
theorem c8_sse_short_circuit_witness :
    ((SSE.send_request ⟨true, true, 2, [(1, 10)]⟩ 2 20 (.resp 200 (some .null))
        (.resolved (.str "late"))).1 = .ok .null ∧
      SSE.send_request ⟨true, true, 2, [(1, 10)]⟩ 2 20 (.resp 200 (some .null))
          (.resolved (.str "late")) =
        SSE.send_request ⟨true, true, 2, [(1, 10)]⟩ 2 20 (.resp 200 (some .null))
          .timedOut ∧
      dictGet (SSE.send_request ⟨true, true, 2, [(1, 10)]⟩ 2 20 (.resp 200 (some .null))
          (.resolved (.str "late"))).2.pending_requests 2 = none) ∧
    ((SSE.send_request ⟨true, true, 2, [(1, 10)]⟩ 2 20 .raised .timedOut).1 =
      .error .sendFailed ∧
      dictGet (SSE.send_request ⟨true, true, 2, [(1, 10)]⟩ 2 20 .raised
          .timedOut).2.pending_requests 2 = none) :=
  ⟨⟨(c8_sse_short_circuit.1 ⟨true, true, 2, [(1, 10)]⟩ 2 20 200 .null
      (.resolved (.str "late")) .timedOut rfl (by decide)).1,
    (c8_sse_short_circuit.1 ⟨true, true, 2, [(1, 10)]⟩ 2 20 200 .null
      (.resolved (.str "late")) .timedOut rfl (by decide)).2.1,
    (c8_sse_short_circuit.1 ⟨true, true, 2, [(1, 10)]⟩ 2 20 200 .null
      (.resolved (.str "late")) .timedOut rfl (by decide)).2.2.1⟩,
   ⟨(c8_sse_short_circuit.2 ⟨true, true, 2, [(1, 10)]⟩ 2 20 .timedOut .timedOut rfl).1,
    (c8_sse_short_circuit.2 ⟨true, true, 2, [(1, 10)]⟩ 2 20 .timedOut .timedOut
      rfl).2.2.1⟩⟩

/-! ## C7 — `executeTool`: state gate and structured results -/

set_option linter.unreachableTactic false in
set_option linter.unusedTactic false in
/-- Every non-raising run of the backend try-block yields a well-formed
result: success with a payload, or failure with an error message. -/
theorem backend_body_structured (w : HttpPost) (r : Backend.ToolResult)
    (h : Backend.execute_tool_body w = .ok r) :
    (r.success = true ∧ r.result.isSome = true) ∨
    (r.success = false ∧ r.error.isSome = true) := by
  unfold Backend.execute_tool_body at h
  repeat' split at h
  all_goals
    first
    | (subst h; simp)
    | (have h' := Except.ok.inj h; subst h'; simp)
    | simp at h

set_option linter.unreachableTactic false in
set_option linter.unusedTactic false in
/-- Every non-raising run of the bridge try-block yields a well-formed
result: status `success` with a payload, or status `error` with an error
value. -/
theorem bridge_body_structured (w : HttpPost) (r : Bridge.BToolResult)
    (h : Bridge.execute_tool_body w = .ok r) :
    (r.status = "success" ∧ r.result.isSome = true) ∨
    (r.status = "error" ∧ r.error.isSome = true) := by
  unfold Bridge.execute_tool_body at h
  repeat' split at h
  all_goals
    first
    | (subst h; simp)
    | (have h' := Except.ok.inj h; subst h'; simp)
    | simp at h

/-- C7.  Backend `execute_tool` on a provider whose state is not connected
fails immediately with a "not running" error and performs no network I/O;
and on every input and every world — including raising HTTP calls and
arbitrary response bodies — both the backend `execute_tool` and the
bridge's `execute_tool` return a structured result (success with a
payload, or failure with an error), never an unhandled exception (the
functions are total into the result type, with the try-blocks' exceptions
all absorbed by the modelled handlers). -/
theorem c7_execute_tool_structured :
    (∀ (st : Backend.State) (sid tool : String) (args : JValue) (w : HttpPost)
        (server : Backend.MCPServer),
      dictGet st.servers sid = some server → server.status ≠ "connected" →
      Backend.execute_tool st sid tool args w =
        ({success := false,
          error := some (.str ("Server " ++ server.name ++ " is not running"))}, [])) ∧
    (∀ (st : Backend.State) (sid tool : String) (args : JValue) (w : HttpPost),
      ((Backend.execute_tool st sid tool args w).1.success = true ∧
        (Backend.execute_tool st sid tool args w).1.result.isSome = true) ∨
      ((Backend.execute_tool st sid tool args w).1.success = false ∧
        (Backend.execute_tool st sid tool args w).1.error.isSome = true)) ∧
    (∀ (bst : Bridge.BState) (name : String) (args : JValue) (w : HttpPost),
      ((Bridge.execute_tool bst name args w).1.status = "success" ∧
        (Bridge.execute_tool bst name args w).1.result.isSome = true) ∨
      ((Bridge.execute_tool bst name args w).1.status = "error" ∧
        (Bridge.execute_tool bst name args w).1.error.isSome = true)) := by
  refine ⟨?_, ?_, ?_⟩
  · intro st sid tool args w server hlook hconn
    simp [Backend.execute_tool, hlook, hconn]
  · intro st sid tool args w
    cases hlook : dictGet st.servers sid with
    | none =>
      right
      simp [Backend.execute_tool, hlook]
    | some server =>
      by_cases hconn : server.status = "connected"
      · cases hbody : Backend.execute_tool_body w with
        | ok r =>
          have hred : Backend.execute_tool st sid tool args w =
              (r, [NetEvent.posted server.url]) := by
            simp [Backend.execute_tool, hlook, hconn, hbody]
          rw [hred]
          exact backend_body_structured w r hbody
        | error e =>
          right
          cases e <;> simp [Backend.execute_tool, hlook, hconn, hbody]
      · right
        simp [Backend.execute_tool, hlook, hconn]
  · intro bst name args w
    by_cases hhas : Bridge.toolMapHas bst.tool_map name = true
    · cases hbody : Bridge.execute_tool_body w with
      | ok r =>
        have hred : Bridge.execute_tool bst name args w =
            (r, [NetEvent.posted bst.server_url]) := by
          simp [Bridge.execute_tool, hhas, hbody]
        rw [hred]
        exact bridge_body_structured w r hbody
      | error e =>
        right
        simp [Bridge.execute_tool, hhas, hbody]
    · right
      simp [Bridge.execute_tool, hhas]

/-- Witness for C7 at a concrete state: a configured but disconnected
provider makes `execute_tool` fail with the "not running" error and an
empty I/O trace; and on a connected provider with a raising POST the
result is still structured. -/
theorem c7_execute_tool_structured_witness :
    Backend.execute_tool
        ⟨[("a", {id := "a", name := "fs", type := "stdio", command := "npx",
                 url := "http://localhost:3500", status := "disconnected",
                 pid := none})]⟩ "a" "read_file" (.obj []) .raised =
      ({success := false, error := some (.str "Server fs is not running")}, []) ∧
    (((Backend.execute_tool
        ⟨[("a", {id := "a", name := "fs", type := "stdio", command := "npx",
                 url := "http://localhost:3500", status := "connected",
                 pid := some 7})]⟩ "a" "read_file" (.obj []) .raised).1.success = true ∧
      (Backend.execute_tool
        ⟨[("a", {id := "a", name := "fs", type := "stdio", command := "npx",
                 url := "http://localhost:3500", status := "connected",
                 pid := some 7})]⟩ "a" "read_file" (.obj []) .raised).1.result.isSome =
        true) ∨
     ((Backend.execute_tool
        ⟨[("a", {id := "a", name := "fs", type := "stdio", command := "npx",
                 url := "http://localhost:3500", status := "connected",
                 pid := some 7})]⟩ "a" "read_file" (.obj []) .raised).1.success = false ∧
      (Backend.execute_tool
        ⟨[("a", {id := "a", name := "fs", type := "stdio", command := "npx",
                 url := "http://localhost:3500", status := "connected",
                 pid := some 7})]⟩ "a" "read_file" (.obj []) .raised).1.error.isSome =
        true)) :=
  ⟨c7_execute_tool_structured.1
      ⟨[("a", {id := "a", name := "fs", type := "stdio", command := "npx",
               url := "http://localhost:3500", status := "disconnected", pid := none})]⟩
      "a" "read_file" (.obj []) .raised _ rfl (by decide),
   c7_execute_tool_structured.2.1
      ⟨[("a", {id := "a", name := "fs", type := "stdio", command := "npx",
               url := "http://localhost:3500", status := "connected", pid := some 7})]⟩
      "a" "read_file" (.obj []) .raised⟩

/-! ## C9 — empty tool discovery fails bridge initialization -/

/-- C9.  Whenever discovery yields an empty tool list — for any state and
any HTTP world — bridge initialization returns failure (`if not tools:
return False`). -/
theorem c9_empty_discovery_fails (st : Bridge.BState) (w : HttpPost)
    (h : Bridge.discover_tools st w = []) :
    ( Bridge.initializeBridge st w).1 = false := by
  simp [Bridge.initializeBridge, h]

/-- Witness for C9: a provider answering discovery with HTTP 500 yields an
empty tool list and a failed initialization. -/
theorem c9_empty_discovery_fails_witness :
    Bridge.discover_tools ⟨"http://localhost:3500", [], []⟩ (.resp 500 none) = [] ∧
    ( Bridge.initializeBridge ⟨"http://localhost:3500", [], []⟩ (.resp 500 none)).1 =
      false :=
  ⟨rfl, c9_empty_discovery_fails ⟨"http://localhost:3500", [], []⟩ (.resp 500 none) rfl⟩
